import Mathlib

/-!
Verification development for the Lua-KeyValues-Source2 repository.

The three dialect modules `src/lua_kv.c` (KV0, prefix `ckv_`),
`src/lua_kv1.c` (KV1, prefix `ckv1_`) and `src/lua_kv3.c` (KV3, prefix
`ckv3_`) are shallowly embedded below.  Byte strings are `List Nat`
(one entry per byte); reading at or past the end of a Lua string yields
the terminating NUL, so `byteAt` defaults to `0` there.  C loops become
fuel-indexed structural recursions returning `none` when the fuel runs
out, which models a loop that runs off the end of the buffer.  Doubles
become `CDouble` (an exact rational, infinity, or NaN).  Lua tables
become insertion-ordered association lists; key comparison follows
Lua's semantics (value equality for scalars, reference equality -
always false here, since every constructed table is fresh - for
tables).  Library pieces that live outside `src/` (the missing
`common.h` header: `fpconv_strtod`, `fpconv_g_fmt`, `char2escape`) are
modelled from the spec and marked as such in their doc comments.
-/

/-- Byte strings: one `Nat` per byte of the Lua string. -/
abbrev ByteStr := List Nat

/-- Reading the input buffer: C code walks a NUL-terminated copy of the
Lua string, so a read at or past the end yields 0. -/
def byteAt (data : ByteStr) (i : Nat) : Nat := data.getD i 0

/-- Convenience conversion from Lean string literals to byte strings. -/
def strBytes (s : String) : ByteStr := s.data.map Char.toNat

/-- Model of a C `double` value: an exact finite rational, a signed
infinity, or NaN.  The claims only exercise small integral values, so
no IEEE-754 rounding is modelled. -/
inductive CDouble where
  | finite (q : ℚ)
  | inf (neg : Bool)
  | nan
deriving DecidableEq, Repr

/-- Model of a Lua value as built by the decoders and consumed by the
encoders.  `null` is the `lightuserdata NULL` sentinel the decoders push
for an explicit null; a missing table slot (Lua `nil`) is modelled with
`Option` at the use sites. -/
inductive LuaValue where
  | str (s : ByteStr)
  | num (d : CDouble)
  | boolean (b : Bool)
  | null
  | table (fields : List (LuaValue × LuaValue))

/-- Lua primitive key equality as used by `lua_rawset`/`lua_rawget`:
scalars compare by value, the NULL lightuserdata is a unique pointer
(hence equal to itself), and tables compare by reference - every table
the model constructs is fresh, so two table values never compare equal
as keys. -/
def luaKeyEq : LuaValue → LuaValue → Bool
  | .str a, .str b => a = b
  | .num a, .num b => a = b
  | .boolean a, .boolean b => a = b
  | .null, .null => true
  | _, _ => false

/-- Model of `lua_rawset t[k] = v` on an insertion-ordered table:
overwrite in place if the key is present, else append. -/
def rawset : List (LuaValue × LuaValue) → LuaValue → LuaValue → List (LuaValue × LuaValue)
  | [], k, v => [(k, v)]
  | (k', v') :: rest, k, v =>
    if luaKeyEq k' k then (k, v) :: rest else (k', v') :: rawset rest k v

/-- Model of `lua_rawget`. -/
def rawget : List (LuaValue × LuaValue) → LuaValue → Option LuaValue
  | [], _ => none
  | (k', v') :: rest, k => if luaKeyEq k' k then some v' else rawget rest k

/-- Fast-path construction of an integral rational, used for the
`lua_rawseti`/`lua_rawgeti` integer indices: definitionally equal to
the numeric cast, but evaluates directly. -/
def qOfNat (n : Nat) : ℚ := ⟨Int.ofNat n, 1, one_ne_zero, Nat.coprime_one_right _⟩

/-- Model of `lua_rawgeti t[i]`: numeric index lookup; `none` is Lua `nil`. -/
def rawgeti (t : List (LuaValue × LuaValue)) (i : Nat) : Option LuaValue :=
  rawget t (.num (.finite (qOfNat i)))

/-- Helper for `rawlen`: count consecutive integer keys from `i` up. -/
def rawlenAux (t : List (LuaValue × LuaValue)) : Nat → Nat → Nat
  | 0, i => i - 1
  | fuel + 1, i =>
    match rawgeti t i with
    | some _ => rawlenAux t fuel (i + 1)
    | none => i - 1

/-- Model of `lua_rawlen` on a table: the border, i.e. the number of
consecutive integer keys starting at 1. -/
def rawlen (t : List (LuaValue × LuaValue)) : Nat := rawlenAux t (t.length + 1) 1

/-- Per-instance configuration (`ckv_config_t` and its KV1/KV3 twins).
The character-class and escape tables are fixed at initialisation and
appear below as standalone functions.  Field defaults come from the
spec (`decode_invalid_numbers` off, depth limits "a small double-digit
number", precision 14); the numeric `DEFAULT_*` macros live in the
missing `common.h` header, and every claim below passes the
configuration explicitly where it matters. -/
structure Cfg where
  encode_sparse_convert : Bool := false
  encode_sparse_rat : Int := 2
  encode_sparse_safe : Int := 10
  encode_max_depth : Nat := 20
  decode_max_depth : Nat := 20
  encode_invalid_numbers : Nat := 0
  encode_number_precision : Nat := 14
  decode_invalid_numbers : Bool := false
  keepln : Bool := false
deriving Repr

/-- The default configuration instance used by the concrete scenarios. -/
def cfg0 : Cfg := {}

/-- Case-insensitive byte: C's `strncasecmp`/the `| 0x20` trick the
source itself uses for hex detection. -/
def lowerB (c : Nat) : Nat := c ||| 32

/-- Case-insensitive prefix test on a byte list. -/
def ciPrefixL : List Nat → List Nat → Bool
  | [], _ => true
  | _ :: _, [] => false
  | p :: ps, c :: cs => lowerB c = p && ciPrefixL ps cs

/-- Accumulate leading decimal digits: returns (value, digit count, rest). -/
def takeDigits : Nat → Nat → List Nat → Nat × Nat × List Nat
  | acc, n, c :: rest =>
    if 48 ≤ c ∧ c ≤ 57 then takeDigits (acc * 10 + (c - 48)) (n + 1) rest
    else (acc, n, c :: rest)
  | acc, n, [] => (acc, n, [])

/-- Accumulate leading hexadecimal digits: returns (value, digit count, rest). -/
def takeHexDigits : Nat → Nat → List Nat → Nat × Nat × List Nat
  | acc, n, c :: rest =>
    if 48 ≤ c ∧ c ≤ 57 then takeHexDigits (acc * 16 + (c - 48)) (n + 1) rest
    else if 97 ≤ lowerB c ∧ lowerB c ≤ 102 then
      takeHexDigits (acc * 16 + (lowerB c - 87)) (n + 1) rest
    else (acc, n, c :: rest)
  | acc, n, [] => (acc, n, [])

/-- Exact value of `mant * 10 ^ e` as a rational. -/
def scale10 (mant : Int) (e : Int) : ℚ :=
  if 0 ≤ e then ((mant * 10 ^ e.toNat : Int) : ℚ)
  else mkRat mant (10 ^ (-e).toNat)

/-- Modelled from the spec: the standard double-parsing primitive
(`fpconv_strtod`, declared in the missing `common.h` library header and
treated as a library by the spec).  Parses an optional sign, then a
case-insensitive `inf`/`infinity`/`nan`, a hexadecimal `0x...` integer,
or a decimal mantissa with optional fraction and exponent; returns the
parsed value and the number of bytes consumed, or `none` when no
conversion was performed (C: `endptr == ptr`).  Decimal values are kept
exact as rationals. -/
def fpconv_strtod (l : ByteStr) : Option (CDouble × Nat) :=
  let signLen : Nat := match l with | 45 :: _ => 1 | 43 :: _ => 1 | _ => 0
  let neg : Bool := match l with | 45 :: _ => true | _ => false
  let l1 := l.drop signLen
  if ciPrefixL [105, 110, 102, 105, 110, 105, 116, 121] l1 then
    some (.inf neg, signLen + 8)
  else if ciPrefixL [105, 110, 102] l1 then
    some (.inf neg, signLen + 3)
  else if ciPrefixL [110, 97, 110] l1 then
    some (.nan, signLen + 3)
  else if byteAt l1 0 = 48 ∧ lowerB (byteAt l1 1) = 120 then
    let (v, n, _) := takeHexDigits 0 0 (l1.drop 2)
    if n = 0 then some (.finite 0, signLen + 1)
    else some (.finite ((if neg then -(v : Int) else (v : Int)) : ℚ), signLen + 2 + n)
  else
    let (ip, d1, rest1) := takeDigits 0 0 l1
    let hasDot : Bool := byteAt rest1 0 = 46
    let (fp, d2, rest2) :=
      if hasDot then takeDigits 0 0 (rest1.drop 1) else (0, 0, rest1)
    if d1 = 0 ∧ d2 = 0 then none
    else
      let mant : Int := (if neg then -1 else 1) * ((ip * 10 ^ d2 + fp : Nat) : Int)
      let mantLen : Nat := signLen + d1 + (if hasDot then 1 + d2 else 0)
      let expPart : Option (Int × Nat) :=
        if lowerB (byteAt rest2 0) = 101 then
          let esLen : Nat := match byteAt rest2 1 with | 45 => 1 | 43 => 1 | _ => 0
          let eneg : Bool := byteAt rest2 1 = 45
          let (ev, en, _) := takeDigits 0 0 (rest2.drop (1 + esLen))
          if en = 0 then none
          else some ((if eneg then -(ev : Int) else (ev : Int)), 1 + esLen + en)
        else none
      match expPart with
      | some (e, elen) =>
        some (.finite (scale10 mant (e - (d2 : Int))), mantLen + elen)
      | none =>
        some (.finite (scale10 mant (-(d2 : Int))), mantLen)

/-- Decimal digits of a natural number, as bytes. -/
def natDigits (n : Nat) : ByteStr := (Nat.toDigits 10 n).map Char.toNat

/-- Decimal digits of an integer, as bytes. -/
def intDigits (i : Int) : ByteStr :=
  if i < 0 then 45 :: natDigits i.natAbs else natDigits i.natAbs

/-- Up to `prec` fractional digits of `num/den` by long division,
trailing zeros trimmed. -/
def fracDigits : Nat → Nat → Nat → ByteStr
  | 0, _, _ => []
  | _, _, 0 => []
  | prec + 1, rem, den =>
    if rem = 0 then []
    else
      let d := rem * 10 / den
      let rest := fracDigits prec (rem * 10 % den) den
      if d = 0 ∧ rest = [] then [] else (48 + d) :: rest

/-- Modelled from the spec: the number-to-text conversion primitive
(`fpconv_g_fmt`, `%.Ng` formatting, declared in the missing `common.h`
library header).  Integral values print as plain integers; non-integral
values print the integer part, a dot, and fractional digits by long
division.  The `%g` exponent forms are not modelled (no claim exercises
them).  Infinities and NaN print C-style; the encoders intercept them
before calling this. -/
def fpconv_g_fmt (prec : Nat) (d : CDouble) : ByteStr :=
  match d with
  | .nan => strBytes "nan"
  | .inf neg => if neg then strBytes "-inf" else strBytes "inf"
  | .finite q =>
    if q.den = 1 then intDigits q.num
    else
      let sign : ByteStr := if q.num < 0 then [45] else []
      let n := q.num.natAbs
      sign ++ natDigits (n / q.den) ++ 46 :: fracDigits prec (n % q.den) q.den

/-- Modelled from the spec: the external 256-entry escape table
(`char2escape`, declared in the missing `common.h` library header) used
by all three emitters for bytes that require escaping.  The escape set
mirrors the decode table of spec §4.3a: quote, backslash and the
control bytes b, t, n, f, r; every other byte is emitted raw. -/
def char2escape (c : Nat) : Option ByteStr :=
  if c = 34 then some [92, 34]
  else if c = 92 then some [92, 92]
  else if c = 8 then some [92, 98]
  else if c = 9 then some [92, 116]
  else if c = 10 then some [92, 110]
  else if c = 12 then some [92, 102]
  else if c = 13 then some [92, 114]
  else none

/-- Escape a byte string through `char2escape` (the emitters' shared
per-byte loop). -/
def escapeStr (s : ByteStr) : ByteStr :=
  s.foldr (fun c r => (match char2escape c with | some e => e | none => [c]) ++ r) []

/-- Model of `lua_tolstring`: strings convert to themselves, numbers are
coerced through the `%.14g` format (`LUAI_NUMFFORMAT`), everything else
yields NULL. -/
def luaToStr : LuaValue → Option ByteStr
  | .str s => some s
  | .num d => some (fpconv_g_fmt 14 d)
  | _ => none

/-- The `lua_typename` strings, for the encoders' error messages. -/
def luaTypename : Option LuaValue → String
  | none => "nil"
  | some (.str _) => "string"
  | some (.num _) => "number"
  | some (.boolean _) => "boolean"
  | some .null => "userdata"
  | some (.table _) => "table"

/-- Token payloads (the `value` union plus the kind, for the kinds that
actually occur).  Error tokens carry the static message. -/
inductive Tok where
  | objBegin | objEnd | arrBegin | arrEnd
  | str (s : ByteStr)
  | num (d : CDouble)
  | boolean (b : Bool)
  | null
  | colon | comma | ref
  | tEnd
  | err (msg : String)
deriving DecidableEq, Repr

/-- A produced token: payload, the `token->index` byte offset at which
it was recognised, and the cursor position after consuming it. -/
structure NTok where
  tok : Tok
  index : Nat
  pos : Nat
deriving DecidableEq, Repr

/-- Evaluation-control combinator: pass a natural number to the
continuation in literal form.  Semantically the identity (see
`forceNat_eq`); it stops call-by-name reduction from duplicating
unevaluated arithmetic, which otherwise makes checking concrete runs
of the fuelled interpreters exponentially slow. -/
def forceNat {α : Type} (n : Nat) (k : Nat → α) : α :=
  match n with
  | 0 => k 0
  | m + 1 => k (m + 1)

/-- Evaluation-control combinator for byte strings; the identity. -/
def forceList {α : Type} : List Nat → (List Nat → α) → α
  | [], k => k []
  | c :: rest, k => forceNat c fun c' => forceList rest fun r' => k (c' :: r')

/-- Evaluation-control combinator for token payloads; the identity. -/
def forceTok {α : Type} (t : Tok) (k : Tok → α) : α :=
  match t with
  | .str s => forceList s fun s' => k (.str s')
  | other => k other

/-- Evaluation-control combinator for tokens; the identity. -/
def forceNTok {α : Type} (t : NTok) (k : NTok → α) : α :=
  match t with
  | ⟨tok, i, p⟩ =>
    forceTok tok fun tok' => forceNat i fun i' => forceNat p fun p' => k ⟨tok', i', p'⟩

/-- The `ckv_token_type_name` strings used in parse-error messages. -/
def tokTypeName : Tok → String
  | .objBegin => "T_OBJ_BEGIN"
  | .objEnd => "T_OBJ_END"
  | .arrBegin => "T_ARR_BEGIN"
  | .arrEnd => "T_ARR_END"
  | .str _ => "T_STRING"
  | .num _ => "T_NUMBER"
  | .boolean _ => "T_BOOLEAN"
  | .null => "T_NULL"
  | .colon => "T_COLON"
  | .comma => "T_COMMA"
  | .ref => "T_REF"
  | .tEnd => "T_END"
  | .err _ => "T_ERROR"

/-- What a parse error reports as "found": the error message for an
error token, else the token type name. -/
def tokFound : Tok → String
  | .err m => m
  | t => tokTypeName t

/-- Character classes driving the tokenizers' outer loops. -/
inductive TokClass where
  | objBegin | objEnd | arrBegin | arrEnd
  | strC | numC | boolC | nullC
  | colon | comma | ref | comment
  | tEnd | whitespace | error | unknown
deriving DecidableEq, Repr

/-- The KV0 character-class table built by `ckv_create_config`
(src/lua_kv.c:283-310). -/
def ckv_ch2token (c : Nat) : TokClass :=
  if c = 123 then .objBegin
  else if c = 125 then .objEnd
  else if c = 44 then .comma
  else if c = 0 then .tEnd
  else if c = 35 then .ref
  else if c = 32 ∨ c = 9 ∨ c = 10 ∨ c = 13 then .whitespace
  else if c = 47 then .comment
  else if c = 102 ∨ c = 105 ∨ c = 73 ∨ c = 110 ∨ c = 78 ∨ c = 116 then .unknown
  else if c = 34 ∨ c = 43 ∨ c = 45 then .unknown
  else if 48 ≤ c ∧ c ≤ 57 then .unknown
  else .error

/-- The shared escape-decoding table built by the three `*_create_config`
functions (src/lua_kv.c:312-323 and twins); 0 means "string error". -/
def ckv_escape2char (c : Nat) : Nat :=
  if c = 34 then 34
  else if c = 92 then 92
  else if c = 47 then 47
  else if c = 98 then 8
  else if c = 116 then 9
  else if c = 110 then 10
  else if c = 102 then 12
  else if c = 114 then 13
  else if c = 117 then 117
  else 0

/-- Model of `hexdigit2int` (src/lua_kv.c:748-759); `none` is the C -1. -/
def hexdigit2int (c : Nat) : Option Nat :=
  if 48 ≤ c ∧ c ≤ 57 then some (c - 48)
  else if 97 ≤ lowerB c ∧ lowerB c ≤ 102 then some (10 + lowerB c - 97)
  else none

/-- Model of `decode_hex4` (src/lua_kv.c:761-780): four hex digits read
at `pos`, combined big-endian; `none` is the C -1. -/
def decode_hex4 (data : ByteStr) (pos : Nat) : Option Nat :=
  match hexdigit2int (byteAt data pos), hexdigit2int (byteAt data (pos + 1)),
        hexdigit2int (byteAt data (pos + 2)), hexdigit2int (byteAt data (pos + 3)) with
  | some d0, some d1, some d2, some d3 =>
    some ((d0 <<< 12) + (d1 <<< 8) + (d2 <<< 4) + d3)
  | _, _, _, _ => none

/-- Model of `codepoint_to_utf8` (src/lua_kv.c:784-817): the 1-4 byte
UTF-8 encoding; the empty list is the C "return 0" error case. -/
def codepoint_to_utf8 (cp : Nat) : ByteStr :=
  if cp ≤ 0x7F then [cp]
  else if cp ≤ 0x7FF then [(cp >>> 6) ||| 0xC0, (cp &&& 0x3F) ||| 0x80]
  else if cp ≤ 0xFFFF then
    [(cp >>> 12) ||| 0xE0, ((cp >>> 6) &&& 0x3F) ||| 0x80, (cp &&& 0x3F) ||| 0x80]
  else if cp ≤ 0x1FFFFF then
    [(cp >>> 18) ||| 0xF0, ((cp >>> 12) &&& 0x3F) ||| 0x80,
     ((cp >>> 6) &&& 0x3F) ||| 0x80, (cp &&& 0x3F) ||| 0x80]
  else []

/-- Model of `ckv_append_unicode_escape` (src/lua_kv.c:828-884).  `pos`
points at the backslash of a `\uXXXX` escape.  Returns the UTF-8 bytes
to append and the position past the escape (6 or 12 bytes), or `none`
for the C -1 error. -/
def ckv_append_unicode_escape (data : ByteStr) (pos : Nat) : Option (ByteStr × Nat) :=
  match decode_hex4 data (pos + 2) with
  | none => none
  | some cp =>
    if cp &&& 0xF800 = 0xD800 then
      if cp &&& 0x400 ≠ 0 then none
      else if byteAt data (pos + 6) ≠ 92 ∨ byteAt data (pos + 7) ≠ 117 then none
      else
        match decode_hex4 data (pos + 8) with
        | none => none
        | some lo =>
          if lo &&& 0xFC00 ≠ 0xDC00 then none
          else
            let cp' := (((cp &&& 0x3FF) <<< 10) ||| (lo &&& 0x3FF)) + 0x10000
            let u := codepoint_to_utf8 cp'
            if u = [] then none else some (u, pos + 12)
    else
      let u := codepoint_to_utf8 cp
      if u = [] then none else some (u, pos + 6)

/-- Result of a string-literal scan: the decoded bytes and the cursor
after the closing quote, or an error message with the offset at which
scanning stopped (`ckv_set_token_error`); `none` means the model's fuel
ran out. -/
abbrev ScanRes := Option (Except (String × Nat) (ByteStr × Nat))

/-- Map over the decoded bytes of a successful scan. -/
def scanMap (g : ByteStr → ByteStr) : ScanRes → ScanRes
  | some (.ok (s, p)) => some (.ok (g s, p))
  | other => other

/-- Model of the scanning loop of `ckv_next_string_token`
(src/lua_kv.c:897-955), entered with `pos` just past the opening quote.
One unit of fuel is spent per appended chunk; the loop always advances,
so `2 * data.length + 4` fuel is plenty for real inputs. -/
def ckv_string_scan (data : ByteStr) (pos : Nat) : Nat → ScanRes
  | 0 => none
  | fuel + 1 =>
    let ch := byteAt data pos
    if ch = 34 then some (.ok ([], pos + 1))
    else if ch = 0 then some (.error ("unexpected end of string", pos))
    else if ch = 92 then
      let e := ckv_escape2char (byteAt data (pos + 1))
      if e = 117 then
        match ckv_append_unicode_escape data pos with
        | some (u, pos') => scanMap (fun s => u ++ s) (ckv_string_scan data pos' fuel)
        | none => some (.error ("invalid unicode escape code", pos))
      else if e = 0 then some (.error ("invalid escape code", pos))
      else scanMap (fun s => e :: s) (ckv_string_scan data (pos + 2) fuel)
    else scanMap (fun s => ch :: s) (ckv_string_scan data (pos + 1) fuel)

/-- Model of `ckv_is_invalid_number` (src/lua_kv.c:973-1007).  The
`strncasecmp` calls become `lowerB` comparisons, exactly the `| 0x20`
trick the function itself uses for the hex check. -/
def ckv_is_invalid_number (data : ByteStr) (pos : Nat) : Bool :=
  if byteAt data pos = 43 then true
  else
    let p := if byteAt data pos = 45 then pos + 1 else pos
    if byteAt data p = 48 then
      let ch2 := byteAt data (p + 1)
      lowerB ch2 = 120 ∨ (48 ≤ ch2 ∧ ch2 ≤ 57)
    else if byteAt data p ≤ 57 then false
    else if lowerB (byteAt data p) = 105 ∧ lowerB (byteAt data (p + 1)) = 110 ∧
            lowerB (byteAt data (p + 2)) = 102 then true
    else if lowerB (byteAt data p) = 110 ∧ lowerB (byteAt data (p + 1)) = 97 ∧
            lowerB (byteAt data (p + 2)) = 110 then true
    else false

/-- The type of the double-parsing primitive as the tokenizers use it:
bytes at the cursor in, parsed value and consumed length out.  The
tokenizers are parameterised over it so that "the primitive is not
invoked" is expressible as independence from this argument. -/
abbrev StrtodFn := ByteStr → Option (CDouble × Nat)

/-- Model of `ckv_next_number_token` (src/lua_kv.c:1009-1019, identical
in KV1): run the primitive at the cursor; no progress means the
"invalid number" error token. -/
def ckv_next_number_token (std : StrtodFn) (data : ByteStr) (pos : Nat) : NTok :=
  match std (data.drop pos) with
  | none => ⟨.err "invalid number", pos, pos⟩
  | some (d, k) => ⟨.num d, pos, pos + k⟩

/-- Model of the KV0 line-comment skip inside `ckv_next_token`
(src/lua_kv.c:1039-1047): advance until CR or LF, returning the
position of the terminator.  The loop never tests for NUL, so on a
comment that reaches the end of the buffer it runs forever (`none` for
every fuel) - the subject of claim C10. -/
def ckv_comment_skip (data : ByteStr) (pos : Nat) : Nat → Option Nat
  | 0 => none
  | fuel + 1 =>
    let p := pos + 1
    let ch := byteAt data p
    if ch = 13 ∨ ch = 10 then some p else ckv_comment_skip data p fuel

/-- Model of `ckv_next_token` (src/lua_kv.c:1026-1108).  The whitespace
and comment loop recurses on fuel; after it, the dispatch follows the
source: class errors, end, single-character tokens, quoted strings,
numbers behind the invalid-number gate, and the final
"invalid token 1" fallthrough. -/
def ckv_next_token (std : StrtodFn) (cfg : Cfg) (data : ByteStr) (pos : Nat) :
    Nat → Option NTok
  | 0 => none
  | fuel + 1 =>
    let ch := byteAt data pos
    let tc := ckv_ch2token ch
    if tc = .whitespace then ckv_next_token std cfg data (pos + 1) fuel
    else if tc = .comment then
      match ckv_comment_skip data pos fuel with
      | none => none
      | some p' => ckv_next_token std cfg data (p' + 1) fuel
    else if tc = .error then some ⟨.err "invalid token 1057", pos, pos⟩
    else if tc = .tEnd then some ⟨.tEnd, pos, pos⟩
    else if tc = .objBegin then some ⟨.objBegin, pos, pos + 1⟩
    else if tc = .objEnd then some ⟨.objEnd, pos, pos + 1⟩
    else if tc = .comma then some ⟨.comma, pos, pos + 1⟩
    else if tc = .ref then some ⟨.ref, pos, pos + 1⟩
    else if ch = 34 then
      match ckv_string_scan data (pos + 1) fuel with
      | none => none
      | some (.error (m, ep)) => some ⟨.err m, ep, ep⟩
      | some (.ok (s, p')) => some ⟨.str s, pos, p'⟩
    else if ch = 45 ∨ (48 ≤ ch ∧ ch ≤ 57) then
      if cfg.decode_invalid_numbers = false ∧ ckv_is_invalid_number data pos then
        some ⟨.err "invalid number", pos, pos⟩
      else some (ckv_next_number_token std data pos)
    else if cfg.decode_invalid_numbers ∧ ckv_is_invalid_number data pos then
      some (ckv_next_number_token std data pos)
    else some ⟨.err "invalid token 1", pos, pos⟩

/-- Parser state (`ckv_parse_t` without the borrowed pointers): the
cursor offset, the current nesting depth, and `peak`, a ghost field
recording the largest depth ever reached - it is written only by the
descend functions and exists to state the depth-bound claims; it does
not influence control flow. -/
structure PSt where
  pos : Nat
  depth : Nat
  peak : Nat
deriving DecidableEq, Repr

/-- The parsing monad: state in, and either fuel exhaustion (`none`,
modelling a loop that runs off the buffer), a raised `luaL_error`, or a
result with the new state. -/
def ParseM (α : Type) := PSt → Option (Except String (α × PSt))

instance : Monad ParseM where
  pure a := fun st => some (.ok (a, st))
  bind m k := fun st =>
    match m st with
    | none => none
    | some (.error e) => some (.error e)
    | some (.ok (a, st')) => k a st'

/-- Raise a `luaL_error`. -/
def pmFail {α : Type} (e : String) : ParseM α := fun _ => some (.error e)

/-- Model of `ckv_throw_parse_error` (src/lua_kv.c:1116-1136, identical
in KV1/KV3 up to the token-name table, which coincides on the shared
kinds). -/
def pmThrowParse {α : Type} (exp : String) (t : NTok) : ParseM α :=
  let f := tokFound t.tok
  let n := t.index + 1
  pmFail s!"Expected {exp} but found {f} at character {n}"

/-- Lift a fuelled tokenizer call into the monad: runs the tokenizer at
the current cursor and advances it. -/
def pmTok (tokf : Nat → Option NTok) : ParseM NTok := fun st =>
  match tokf st.pos with
  | none => none
  | some t => forceNTok t fun t' => some (.ok (t', { st with pos := t'.pos }))

/-- Model of `ckv_decode_descend` (src/lua_kv.c:1143-1155): increment
the depth, record it in the ghost `peak`, and raise the structural
error when the depth exceeds `decode_max_depth`.  The `lua_checkstack`
conjunct is host stack accounting and is modelled as always true. -/
def ckv_decode_descend (cfg : Cfg) : ParseM Unit := fun st =>
  let d := st.depth + 1
  if d ≤ cfg.decode_max_depth then
    forceNat d fun d' => forceNat (max st.peak d') fun pk =>
      some (.ok ((), { st with depth := d', peak := pk }))
  else
    let c := st.pos
    some (.error s!"Found too many nested data structures ({d}) at character {c}")

/-- Model of `ckv_decode_ascend` (src/lua_kv.c:1138-1141). -/
def ckv_decode_ascend : ParseM Unit := fun st =>
  forceNat (st.depth - 1) fun d => some (.ok ((), { st with depth := d }))

/-- Request selector merging KV0's mutually recursive parse functions
(`ckv_process_value`, `ckv_process_value2`, `ckv_parse_object_context`
with its key/value loop, `ckv_parse_array_context` with its element
loop) into one fuel-indexed function. -/
inductive KV0Req where
  | val (t : NTok)
  | val2 (t : NTok)
  | objCtx
  | objLoop (t : NTok) (acc : List (LuaValue × LuaValue))
  | arrCtx
  | arrLoop (t : NTok) (i : Nat) (acc : List (LuaValue × LuaValue))

/-- The KV0 recursive-descent parser (src/lua_kv.c:1157-1281), one fuel
unit per call/loop iteration.  `.val` is `ckv_process_value`, whose
`T_BOOLEAN` case falls through into `T_NULL` in the source (missing
`break`), so a boolean token yields the null sentinel there; `.val2` is
`ckv_process_value2`, which has the `break`.  Array elements are stored
with `lua_rawseti` (integer keys) and both container loops terminate on
`T_OBJ_END` - KV0 has no bracket tokens. -/
def ckv_parse (std : StrtodFn) (cfg : Cfg) (data : ByteStr) :
    Nat → KV0Req → ParseM LuaValue
  | 0, _ => fun _ => none
  | fuel + 1, req =>
    match req with
    | .val t =>
      match t.tok with
      | .str s => pure (.str s)
      | .objBegin => ckv_parse std cfg data fuel .objCtx
      | .num d => pure (.num d)
      | .boolean _ => pure .null
      | .null => pure .null
      | _ => pmThrowParse "value" t
    | .val2 t =>
      match t.tok with
      | .str s => pure (.str s)
      | .objBegin => ckv_parse std cfg data fuel .arrCtx
      | .num d => pure (.num d)
      | .boolean b => pure (.boolean b)
      | .null => pure .null
      | _ => pmThrowParse "value" t
    | .objCtx => do
      ckv_decode_descend cfg
      let t ← pmTok (ckv_next_token std cfg data · fuel)
      if t.tok = .objEnd then do
        ckv_decode_ascend
        pure (.table [])
      else
        ckv_parse std cfg data fuel (.objLoop t [])
    | .objLoop t acc =>
      match t.tok with
      | .str s => do
        let vt ← pmTok (ckv_next_token std cfg data · fuel)
        let v ← ckv_parse std cfg data fuel (.val vt)
        let acc' := rawset acc (.str s) v
        let nt ← pmTok (ckv_next_token std cfg data · fuel)
        if nt.tok = .objEnd then do
          ckv_decode_ascend
          pure (.table acc')
        else
          ckv_parse std cfg data fuel (.objLoop nt acc')
      | _ => pmThrowParse "object key string" t
    | .arrCtx => do
      ckv_decode_descend cfg
      let t ← pmTok (ckv_next_token std cfg data · fuel)
      if t.tok = .objEnd then do
        ckv_decode_ascend
        pure (.table [])
      else
        ckv_parse std cfg data fuel (.arrLoop t 1 [])
    | .arrLoop t i acc => do
      let v ← ckv_parse std cfg data fuel (.val2 t)
      let acc' := rawset acc (.num (.finite (qOfNat i))) v
      let nt ← pmTok (ckv_next_token std cfg data · fuel)
      if nt.tok = .objEnd then do
        ckv_decode_ascend
        pure (.table acc')
      else
        ckv_parse std cfg data fuel (.arrLoop nt (i + 1) acc')

/-- Fuel budget for a decode: every tokenizer loop iteration and every
parser call consumes at least one input byte or terminates, so a linear
budget covers all real inputs; exhaustion (`none`) only occurs when a
source loop runs off the end of the buffer. -/
def decodeFuel (data : ByteStr) : Nat := data.length * 16 + 64

/-- Core of `ckv_decode` (src/lua_kv.c:1283-1328): the UTF-16/UTF-32
sniff on the first two bytes, then exactly one `key value` pair (both
sides read through `ckv_process_value`) wrapped in a fresh outer table;
an immediately-END input yields the empty table.  Exposes the final
parse state for the depth-bound claims. -/
def ckv_decode_core (std : StrtodFn) (cfg : Cfg) (data : ByteStr) :
    Option (Except String (LuaValue × PSt)) :=
  if 2 ≤ data.length ∧ (byteAt data 0 = 0 ∨ byteAt data 1 = 0) then
    some (.error "ckv parser does not support UTF-16 or UTF-32")
  else
    let fuel := decodeFuel data
    (do
      let t ← pmTok (ckv_next_token std cfg data · fuel)
      if t.tok = .tEnd then pure (.table [])
      else do
        let k ← ckv_parse std cfg data fuel (.val t)
        let vt ← pmTok (ckv_next_token std cfg data · fuel)
        let v ← ckv_parse std cfg data fuel (.val vt)
        pure (.table (rawset [] k v)) : ParseM LuaValue)
    ⟨0, 0, 0⟩

/-- Message the model returns when fuel runs out: the corresponding C
loop never terminates within the buffer (it walks past the NUL). -/
def fuelMsg : String := "model: out of fuel (the source loop runs past the end of the input)"

/-- Collapse a core result to the user-visible one. -/
def runCore (r : Option (Except String (LuaValue × PSt))) : Except String LuaValue :=
  match r with
  | none => .error fuelMsg
  | some (.error e) => .error e
  | some (.ok (v, _)) => .ok v

/-- `ckv.decode` (src/lua_kv.c:1283-1328). -/
def ckv_decode (cfg : Cfg) (data : ByteStr) : Except String LuaValue :=
  runCore (ckv_decode_core fpconv_strtod cfg data)

/-- Core of `ckv_decode2` (src/lua_kv.c:1538-1584): as `ckv_decode` but
the value side goes through `ckv_process_value2` (array contexts). -/
def ckv_decode2_core (std : StrtodFn) (cfg : Cfg) (data : ByteStr) :
    Option (Except String (LuaValue × PSt)) :=
  if 2 ≤ data.length ∧ (byteAt data 0 = 0 ∨ byteAt data 1 = 0) then
    some (.error "ckv parser does not support UTF-16 or UTF-32")
  else
    let fuel := decodeFuel data
    (do
      let t ← pmTok (ckv_next_token std cfg data · fuel)
      if t.tok = .tEnd then pure (.table [])
      else do
        let k ← ckv_parse std cfg data fuel (.val t)
        let vt ← pmTok (ckv_next_token std cfg data · fuel)
        let v ← ckv_parse std cfg data fuel (.val2 vt)
        pure (.table (rawset [] k v)) : ParseM LuaValue)
    ⟨0, 0, 0⟩

/-- `ckv.decode2` (src/lua_kv.c:1538-1584). -/
def ckv_decode2 (cfg : Cfg) (data : ByteStr) : Except String LuaValue :=
  runCore (ckv_decode2_core fpconv_strtod cfg data)

/-- The encoding monad: fuel exhaustion, a raised `luaL_error`, or the
produced bytes/value.  The emitters append to a string buffer; the
model returns each piece and concatenates in order. -/
def EncM (α : Type) := Option (Except String α)

instance : Monad EncM where
  pure a := some (.ok a)
  bind m k :=
    match m with
    | none => none
    | some (.error e) => some (.error e)
    | some (.ok a) => k a

/-- Raise a `luaL_error` while encoding. -/
def emFail {α : Type} (e : String) : EncM α := some (.error e)

/-- Model of `ckv_encode_exception` (src/lua_kv.c:328-335, identical in
KV1/KV3): "Cannot serialise <lua type>: <reason>". -/
def encodeException {α : Type} (v : Option LuaValue) (reason : String) : EncM α :=
  let tn := luaTypename v
  emFail s!"Cannot serialise {tn}: {reason}"

/-- Model of `ckv_check_encode_depth` (src/lua_kv.c:407-428, identical
in KV1/KV3); the `lua_checkstack` conjunct is modelled as true. -/
def checkEncodeDepth (cfg : Cfg) (depth : Nat) : EncM Unit :=
  if depth ≤ cfg.encode_max_depth then pure ()
  else emFail s!"Cannot serialise, excessive nesting ({depth})"

/-- Model of `ckv_append_string` (src/lua_kv.c:343-366): the value is
coerced with `lua_tolstring` (strings and numbers only; anything else
is NULL, which the C would dereference), wrapped in quotes, each byte
escaped through `char2escape`. -/
def ckv_append_string (v : LuaValue) : EncM ByteStr :=
  match luaToStr v with
  | some s => pure (34 :: escapeStr s ++ [34])
  | none => emFail "model: lua_tolstring on a value that does not convert to a string"

/-- Model of `ckv_append_number` (src/lua_kv.c:369-405, identical in
KV1): NaN/infinity handling gated by `encode_invalid_numbers`
(0 raise, 1 literals, 2 "null"), else `fpconv_g_fmt` at the configured
precision. -/
def ckv_append_number (cfg : Cfg) (d : CDouble) : EncM ByteStr :=
  match d with
  | .finite q => pure (fpconv_g_fmt cfg.encode_number_precision (.finite q))
  | .nan =>
    if cfg.encode_invalid_numbers = 0 then
      encodeException (some (.num d)) "must not be NaN or Infinity"
    else if cfg.encode_invalid_numbers = 1 then pure (strBytes "NaN")
    else pure (strBytes "null")
  | .inf neg =>
    if cfg.encode_invalid_numbers = 0 then
      encodeException (some (.num d)) "must not be NaN or Infinity"
    else if cfg.encode_invalid_numbers = 1 then
      pure (strBytes (if neg then "-Infinity" else "Infinity"))
    else pure (strBytes "null")

/-- Model of `lua_array_length` (src/lua_kv.c:430-471): -1 when some
key is not a positive integral number (a zero key fails the C's
truthiness test as well), else the maximum key, with the sparse-array
policy applied. -/
def lua_array_length (cfg : Cfg) (t : List (LuaValue × LuaValue)) : EncM Int :=
  let scan : Option (ℚ × Nat) :=
    t.foldl (fun acc kv =>
      match acc, kv.1 with
      | some (mx, items), .num (.finite k) =>
        if k.den = 1 ∧ 1 ≤ k then some (max mx k, items + 1) else none
      | _, _ => none) (some (0, 0))
  match scan with
  | none => pure (-1)
  | some (mx, items) =>
    let mxI : Int := mx.num
    if 0 < cfg.encode_sparse_rat ∧ mxI > (items : Int) * cfg.encode_sparse_rat ∧
        mxI > cfg.encode_sparse_safe then
      if ¬cfg.encode_sparse_convert then
        encodeException (some (.table t)) "excessively sparse array"
      else pure (-1)
    else pure mxI

/-- Tab indentation helper (`keepln` mode emits hard tabs). -/
def tabs (n : Nat) : ByteStr := List.replicate n 9

/-- Request selector merging KV0's mutually recursive emit functions
(`ckv_append_data`, `ckv_append_data2`, `ckv_append_object` with its
pair loop, `ckv_append_array` with its slot loop). -/
inductive KV0EncReq where
  | data (depth : Nat) (v : Option LuaValue)
  | data2 (depth : Nat) (v : Option LuaValue)
  | obj (depth : Nat) (pairs : List (LuaValue × LuaValue))
  | objPairs (depth : Nat) (pairs : List (LuaValue × LuaValue))
  | arr (depth : Nat) (t : List (LuaValue × LuaValue)) (len : Int)
  | arrSlots (depth : Nat) (t : List (LuaValue × LuaValue)) (len : Int) (i : Nat)

/-- The KV0 emitter (src/lua_kv.c:473-658).  `.data` is
`ckv_append_data` (tables → `ckv_append_object`), `.data2` is
`ckv_append_data2` (tables → `lua_array_length` + `ckv_append_array`,
reading slots pairwise with `lua_rawgeti`); `none` values are Lua `nil`
(missing slot) and print "null".  `keepln` drives the newline/tab
layout exactly as in the source. -/
def ckv_append (cfg : Cfg) : Nat → KV0EncReq → EncM ByteStr
  | 0, _ => none
  | fuel + 1, req =>
    match req with
    | .data depth v =>
      match v with
      | some (.str s) => ckv_append_string (.str s)
      | some (.table pairs) => do
        let d := depth + 1
        checkEncodeDepth cfg d
        ckv_append cfg fuel (.obj d pairs)
      | none => pure (strBytes "null")
      | some (.num dd) => ckv_append_number cfg dd
      | some .null => pure (strBytes "null")
      | some v' => encodeException (some v') "type not supported"
    | .data2 depth v =>
      match v with
      | some (.str s) => ckv_append_string (.str s)
      | some (.table pairs) => do
        let d := depth + 1
        checkEncodeDepth cfg d
        let len ← lua_array_length cfg pairs
        ckv_append cfg fuel (.arr d pairs len)
      | none => pure (strBytes "null")
      | some (.num dd) => ckv_append_number cfg dd
      | some .null => pure (strBytes "null")
      | some v' => encodeException (some v') "type not supported"
    | .obj depth pairs => do
      let pre : ByteStr :=
        if cfg.keepln then 10 :: tabs (depth - 1) ++ [123] ++ [10] else [123]
      let body ← ckv_append cfg fuel (.objPairs depth pairs)
      let post : ByteStr := if cfg.keepln then tabs (depth - 1) ++ [125] else [125]
      pure (pre ++ body ++ post)
    | .objPairs depth pairs =>
      match pairs with
      | [] => pure []
      | (k, v) :: rest => do
        let ind : ByteStr := if cfg.keepln then tabs depth else []
        let ks ← ckv_append_string k
        let vs ← ckv_append cfg fuel (.data depth (some v))
        let nl : ByteStr := if cfg.keepln then [10] else []
        let more ← ckv_append cfg fuel (.objPairs depth rest)
        pure (ind ++ ks ++ [9] ++ vs ++ nl ++ more)
    | .arr depth t len => do
      let pre : ByteStr :=
        if cfg.keepln then 10 :: tabs (depth - 1) ++ [123] ++ [10] else [123]
      let body ← ckv_append cfg fuel (.arrSlots depth t len 1)
      let post : ByteStr := if cfg.keepln then tabs (depth - 1) ++ [125] else [125]
      pure (pre ++ body ++ post)
    | .arrSlots depth t len i =>
      if (i : Int) > len then pure []
      else do
        let ind : ByteStr := if cfg.keepln then tabs depth else []
        let e1 ← ckv_append cfg fuel (.data2 depth (rawgeti t i))
        let e2 ← ckv_append cfg fuel (.data2 depth (rawgeti t (i + 1)))
        let nl : ByteStr := if cfg.keepln then [10] else []
        let more ← ckv_append cfg fuel (.arrSlots depth t len (i + 2))
        pure (ind ++ e1 ++ [9] ++ e2 ++ nl ++ more)

/-- Fuel budget for the emitters; far above anything the concrete
scenarios need (one unit per emitted node/slot). -/
def encodeFuel : Nat := 1048576

/-- Collapse an emitter result. -/
def runEnc (r : EncM ByteStr) : Except String ByteStr :=
  match r with
  | none => .error fuelMsg
  | some (.error e) => .error e
  | some (.ok s) => .ok s

/-- `ckv.encode` (src/lua_kv.c:661-699): takes the first key/value pair
of the argument table (`lua_pushnil; lua_next` once), emits
`"key" TAB value` through `ckv_append_data` at depth 0.  On an empty
table the source's single `lua_next` leaves the stack in a state where
the following reads are undefined; the model reports that explicitly. -/
def ckv_encode (cfg : Cfg) (v : LuaValue) : Except String ByteStr :=
  match v with
  | .table ((k, val) :: _) =>
    runEnc (do
      let ks ← ckv_append_string k
      let vs ← ckv_append cfg encodeFuel (.data 0 (some val))
      pure (ks ++ [9] ++ vs))
  | .table [] => .error "model: lua_next misuse on an empty table (undefined in source)"
  | _ => .error "model: encode expects a table"

/-- `ckv.encode2` (src/lua_kv.c:701-739): as `encode` with
`ckv_append_data2`. -/
def ckv_encode2 (cfg : Cfg) (v : LuaValue) : Except String ByteStr :=
  match v with
  | .table ((k, val) :: _) =>
    runEnc (do
      let ks ← ckv_append_string k
      let vs ← ckv_append cfg encodeFuel (.data2 0 (some val))
      pure (ks ++ [9] ++ vs))
  | .table [] => .error "model: lua_next misuse on an empty table (undefined in source)"
  | _ => .error "model: encode expects a table"

/-- The KV1 character-class table built by `ckv1_create_config`
(src/lua_kv1.c:218-249); KV3's table (src/lua_kv3.c:155-186) is byte
for byte the same. -/
def ckv1_ch2token (c : Nat) : TokClass :=
  if c = 123 then .objBegin
  else if c = 125 then .objEnd
  else if c = 91 then .arrBegin
  else if c = 93 then .arrEnd
  else if c = 44 then .comma
  else if c = 61 then .colon
  else if c = 0 then .tEnd
  else if c = 32 ∨ c = 9 ∨ c = 10 ∨ c = 13 then .whitespace
  else if c = 34 ∨ c = 43 ∨ c = 45 ∨ c = 60 then .unknown
  else if 48 ≤ c ∧ c ≤ 57 then .unknown
  else if (97 ≤ c ∧ c ≤ 122) ∨ (65 ≤ c ∧ c ≤ 90) then .unknown
  else .error

/-- Count of consecutive backslash bytes at the head of a list: the
spec-level description of a "maximal run of consecutive backslashes"
(past-the-end reads are NUL and stop the run). -/
def slashRun : List Nat → Nat
  | 92 :: rest => slashRun rest + 1
  | _ => 0

/-- The inner `while (ch == '\\')` loop of the KV1/KV3 string scanners
(src/lua_kv1.c:873-878 and twins): advance to the first
non-backslash byte and return its position. -/
def ckv1_slash_loop (data : ByteStr) (pos : Nat) : Nat → Option Nat
  | 0 => none
  | fuel + 1 =>
    if byteAt data pos = 92 then ckv1_slash_loop data (pos + 1) fuel
    else some pos

/-- Model of the scanning loop of `ckv1_next_string_token`
(src/lua_kv1.c:848-894), entered just past the opening quote: a quote
closes the literal, a NUL errors, and on a backslash the inner loop
skips the run, after which '/' and then whatever byte ended the run
are appended - that byte is consumed even if it is a quote or NUL.
`\u` is never decoded. -/
def ckv1_next_string_token (data : ByteStr) (pos : Nat) : Nat → ScanRes
  | 0 => none
  | fuel + 1 =>
    let ch := byteAt data pos
    if ch = 34 then some (.ok ([], pos + 1))
    else if ch = 0 then some (.error ("unexpected end of string", pos))
    else if ch = 92 then
      match ckv1_slash_loop data pos fuel with
      | none => none
      | some p' =>
        let ch' := byteAt data p'
        scanMap (fun s => 47 :: ch' :: s) (ckv1_next_string_token data (p' + 1) fuel)
    else scanMap (fun s => ch :: s) (ckv1_next_string_token data (pos + 1) fuel)

/-- Model of `ckv1_next_string_token_noquote` (src/lua_kv1.c:896-933):
consume until space, TAB, CR, LF or '='; NUL mid-string errors;
backslash runs collapse exactly as in the quoted scanner. -/
def ckv1_noquote_scan (data : ByteStr) (pos : Nat) : Nat → ScanRes
  | 0 => none
  | fuel + 1 =>
    let ch := byteAt data pos
    if ch = 32 ∨ ch = 9 ∨ ch = 13 ∨ ch = 10 ∨ ch = 61 then some (.ok ([], pos))
    else if ch = 0 then some (.error ("unexpected end of string", pos))
    else if ch = 92 then
      match ckv1_slash_loop data pos fuel with
      | none => none
      | some p' =>
        let ch' := byteAt data p'
        scanMap (fun s => 47 :: ch' :: s) (ckv1_noquote_scan data (p' + 1) fuel)
    else scanMap (fun s => ch :: s) (ckv1_noquote_scan data (pos + 1) fuel)

/-- Model of the `-->` search loop of the KV1/KV3 block-comment skip
(src/lua_kv1.c:1036-1051, src/lua_kv3.c:522-538): `offset` is the
number of already-matched terminator bytes; a mismatch resets it to 0.
No NUL test, so an unterminated comment runs forever (`none` for every
fuel) - the subject of claim C10. -/
def markEndByte (offset : Nat) : Nat := if offset = 0 ∨ offset = 1 then 45 else 62

def markSkip (data : ByteStr) : Nat → Nat → Nat → Option Nat
  | _, _, 0 => none
  | pos, offset, fuel + 1 =>
    let ch := byteAt data pos
    if ch = markEndByte offset then
      if offset = 2 then some (pos + 1) else markSkip data (pos + 1) (offset + 1) fuel
    else markSkip data (pos + 1) 0 fuel

/-- The post-comment whitespace loop of the KV1/KV3 tokenizers. -/
def wsSkip (data : ByteStr) (cls : Nat → TokClass) : Nat → Nat → Option Nat
  | pos, fuel + 1 =>
    if cls (byteAt data pos) = .whitespace then wsSkip data cls (pos + 1) fuel
    else some pos
  | _, 0 => none

/-- Model of `ckv1_is_invalid_number` (src/lua_kv1.c:950-984):
textually identical to the KV0 function. -/
def ckv1_is_invalid_number : ByteStr → Nat → Bool := ckv_is_invalid_number

/-- Dispatch part of `ckv1_next_token` (src/lua_kv1.c:1063-1127), after
whitespace and the `<!-- -->` handling.  `pos` is where the token
starts (`token->index`); `ch` is the C `ch` variable at that point -
normally `byteAt data pos`, but after a failed `<!--` probe the source
has overwritten it with the first mismatching probe byte, which this
parameter reproduces. -/
def ckv1_dispatch (std : StrtodFn) (cfg : Cfg) (data : ByteStr) (isKey : Bool)
    (pos : Nat) (ch : Nat) (fuel : Nat) : Option NTok :=
  let tc := ckv1_ch2token (byteAt data pos)
  if tc = .error then some ⟨.err "invalid token", pos, pos⟩
  else if tc = .tEnd then some ⟨.tEnd, pos, pos⟩
  else if (97 ≤ ch ∧ ch ≤ 122) ∨ (65 ≤ ch ∧ ch ≤ 90) then
    match ckv1_noquote_scan data pos fuel with
    | none => none
    | some (.error (m, ep)) => some ⟨.err m, ep, ep⟩
    | some (.ok (s, p')) => some ⟨.str s, pos, p'⟩
  else if ((48 ≤ ch ∧ ch ≤ 57) ∨ ch = 45) ∧ isKey then
    match ckv1_noquote_scan data pos fuel with
    | none => none
    | some (.error (m, ep)) => some ⟨.err m, ep, ep⟩
    | some (.ok (s, p')) => some ⟨.str s, pos, p'⟩
  else if tc = .objBegin then some ⟨.objBegin, pos, pos + 1⟩
  else if tc = .objEnd then some ⟨.objEnd, pos, pos + 1⟩
  else if tc = .arrBegin then some ⟨.arrBegin, pos, pos + 1⟩
  else if tc = .arrEnd then some ⟨.arrEnd, pos, pos + 1⟩
  else if tc = .comma then some ⟨.comma, pos, pos + 1⟩
  else if tc = .colon then some ⟨.colon, pos, pos + 1⟩
  else if ch = 34 then
    match ckv1_next_string_token data (pos + 1) fuel with
    | none => none
    | some (.error (m, ep)) => some ⟨.err m, ep, ep⟩
    | some (.ok (s, p')) => some ⟨.str s, pos, p'⟩
  else if ch = 45 ∨ (48 ≤ ch ∧ ch ≤ 57) then
    if cfg.decode_invalid_numbers = false ∧ ckv1_is_invalid_number data pos then
      some ⟨.err "invalid number", pos, pos⟩
    else some (ckv_next_number_token std data pos)
  else if cfg.decode_invalid_numbers ∧ ckv1_is_invalid_number data pos then
    some (ckv_next_number_token std data pos)
  else some ⟨.err "invalid token", pos, pos⟩

/-- First mismatching byte of a failed `<!--` probe: the source's loop
leaves `ch` holding it (src/lua_kv1.c:1018-1029). -/
def markProbeMismatch (data : ByteStr) (pos : Nat) : Nat :=
  if byteAt data (pos + 1) ≠ 33 then byteAt data (pos + 1)
  else if byteAt data (pos + 2) ≠ 45 then byteAt data (pos + 2)
  else byteAt data (pos + 3)

/-- Model of `ckv1_next_token` (src/lua_kv1.c:1002-1127): whitespace
loop, then on `<` a three-byte probe for `!--`; a confirmed comment is
skipped to `-->` followed by another whitespace run, after which the
dispatch happens at the new position.  On a failed probe the dispatch
happens at the `<` itself but with `ch` already clobbered by the probe
(so e.g. `<a` bare-string-scans from the `<`). -/
def ckv1_next_token (std : StrtodFn) (cfg : Cfg) (data : ByteStr) (isKey : Bool)
    (pos : Nat) : Nat → Option NTok
  | 0 => none
  | fuel + 1 =>
    let ch := byteAt data pos
    if ckv1_ch2token ch = .whitespace then
      ckv1_next_token std cfg data isKey (pos + 1) fuel
    else if ch = 60 then
      if byteAt data (pos + 1) = 33 ∧ byteAt data (pos + 2) = 45 ∧
          byteAt data (pos + 3) = 45 then
        match markSkip data (pos + 4) 0 fuel with
        | none => none
        | some p' =>
          match wsSkip data ckv1_ch2token p' fuel with
          | none => none
          | some p'' => ckv1_dispatch std cfg data isKey p'' (byteAt data p'') fuel
      else ckv1_dispatch std cfg data isKey pos (markProbeMismatch data pos) fuel
    else ckv1_dispatch std cfg data isKey pos ch fuel

/-- The module-scoped `loadType` flag of src/lua_kv1.c:11-17, set on
entry of each exported KV1 operation and constant for its duration, so
it is threaded as a parameter. -/
inductive LoadType where
  | map
  | array
deriving DecidableEq, Repr

/-- The `__IsArray__` sentinel (src/lua_kv1.c:1236-1237). -/
def arrayFlag : ByteStr := strBytes "__IsArray__"

/-- Model of `ckv1_decode_descend` (src/lua_kv1.c:1157-1169): textually
identical to the KV0 function. -/
def ckv1_decode_descend : Cfg → ParseM Unit := ckv_decode_descend

/-- Model of `ckv1_decode_ascend` (src/lua_kv1.c:1152-1155). -/
def ckv1_decode_ascend : ParseM Unit := ckv_decode_ascend

/-- Request selector merging KV1's mutually recursive parse functions
(`ckv1_process_value`, `ckv1_parse_object_context` with its loop,
`ckv1_parse_array_context` with its two mode-dependent loops, and the
top-level loops of `ckv1_decode` / `ckv1_decode_array`). -/
inductive KV1Req where
  | val (t : NTok)
  | objCtx
  | objLoop (hasNest : Bool) (t : NTok) (acc : List (LuaValue × LuaValue))
  | arrCtx (isObject : Bool)
  | arrLoopA (isObject hasNest : Bool) (t : NTok) (i v : Nat)
      (acc : List (LuaValue × LuaValue))
  | arrLoopM (t : NTok) (i : Nat) (acc : List (LuaValue × LuaValue))
  | decTop (t : NTok) (acc : List (LuaValue × LuaValue))
  | decArrTop (t : NTok) (i : Nat) (acc : List (LuaValue × LuaValue))

/-- The KV1 recursive-descent parser (src/lua_kv1.c:1171-1535), one
fuel unit per call/loop iteration, `lt` the `loadType` in force.
Notable source behaviours modelled as-is: the `{ STRING {` nested-KV3
skip consumes two tokens blindly and one extra token after the closing
brace; a missing `=` falls back to treating the token at hand as the
value; array-mode flattens pairs and prepends the `__IsArray__`
sentinel for bare arrays; map-mode array elements drop a token between
entries (the comma slot) without checking it.  Where the source would
read `token.value.string` of a non-string token (stale pointer), the
model raises an explicit error instead. -/
def ckv1_parse (std : StrtodFn) (cfg : Cfg) (data : ByteStr) (lt : LoadType) :
    Nat → KV1Req → ParseM LuaValue
  | 0, _ => fun _ => none
  | fuel + 1, req =>
    match req with
    | .val t =>
      match t.tok with
      | .str s => pure (.str s)
      | .num d => pure (.num d)
      | .boolean b => pure (.boolean b)
      | .objBegin =>
        if lt = .array then ckv1_parse std cfg data lt fuel (.arrCtx true)
        else ckv1_parse std cfg data lt fuel .objCtx
      | .arrBegin => ckv1_parse std cfg data lt fuel (.arrCtx false)
      | .null => pure .null
      | _ => pmThrowParse "value" t
    | .objCtx => do
      ckv1_decode_descend cfg
      let t ← pmTok (ckv1_next_token std cfg data true · fuel)
      if t.tok = .objEnd then do
        ckv1_decode_ascend
        pure (.table [])
      else if t.tok = .objBegin then do
        let _ ← pmTok (ckv1_next_token std cfg data true · fuel)
        let t2 ← pmTok (ckv1_next_token std cfg data true · fuel)
        ckv1_parse std cfg data lt fuel (.objLoop true t2 [])
      else
        ckv1_parse std cfg data lt fuel (.objLoop false t [])
    | .objLoop hasNest t acc =>
      match t.tok with
      | .str s => do
        let ct ← pmTok (ckv1_next_token std cfg data false · fuel)
        let v ←
          if ct.tok = .colon then do
            let vt ← pmTok (ckv1_next_token std cfg data false · fuel)
            ckv1_parse std cfg data lt fuel (.val vt)
          else
            ckv1_parse std cfg data lt fuel (.val ct)
        let acc' := rawset acc (.str s) v
        let nt ← pmTok (ckv1_next_token std cfg data true · fuel)
        if nt.tok = .objEnd then do
          if hasNest then do
            let _ ← pmTok (ckv1_next_token std cfg data true · fuel)
            ckv1_decode_ascend
          else ckv1_decode_ascend
          pure (.table acc')
        else
          ckv1_parse std cfg data lt fuel (.objLoop hasNest nt acc')
      | _ => pmThrowParse "object key string" t
    | .arrCtx isObject => do
      ckv1_decode_descend cfg
      let t ← pmTok (ckv1_next_token std cfg data isObject · fuel)
      if t.tok = .arrEnd ∨ (isObject ∧ t.tok = .objEnd) then do
        ckv1_decode_ascend
        pure (.table [])
      else do
        let (hasNest, t') ←
          if t.tok = .objBegin then do
            let _ ← pmTok (ckv1_next_token std cfg data true · fuel)
            let t2 ← pmTok (ckv1_next_token std cfg data true · fuel)
            pure (true, t2)
          else pure (false, t)
        if lt = .array then
          if isObject then
            ckv1_parse std cfg data lt fuel (.arrLoopA isObject hasNest t' 1 1 [])
          else
            ckv1_parse std cfg data lt fuel
              (.arrLoopA isObject hasNest t' 2 1 (rawset [] (.num (.finite (qOfNat 1))) (.str arrayFlag)))
        else
          ckv1_parse std cfg data lt fuel (.arrLoopM t' 1 [])
    | .arrLoopA isObject hasNest t i v acc => do
      let e ← ckv1_parse std cfg data lt fuel (.val t)
      let acc1 := rawset acc (.num (.finite (qOfNat i))) e
      let i1 := i + 1
      let t2 ← pmTok (ckv1_next_token std cfg data false · fuel)
      let t3 ←
        if t2.tok = .comma then pmTok (ckv1_next_token std cfg data true · fuel)
        else pure t2
      let (t4, i2, v2, acc2) ←
        if t3.tok = .colon then do
          let (iA, vA, accA) :=
            if ¬isObject then (i1 + 1, v + 1, rawset acc1 (.num (.finite (qOfNat i1))) (.num (.finite (qOfNat v))))
            else (i1, v, acc1)
          let vt ← pmTok (ckv1_next_token std cfg data false · fuel)
          let e2 ← ckv1_parse std cfg data lt fuel (.val vt)
          let accB := rawset accA (.num (.finite (qOfNat iA))) e2
          let t4 ← pmTok (ckv1_next_token std cfg data true · fuel)
          pure (t4, iA + 1, vA, accB)
        else pure (t3, i1, v, acc1)
      if t4.tok = .arrEnd ∨ (isObject ∧ t4.tok = .objEnd) then do
        if hasNest then do
          let _ ← pmTok (ckv1_next_token std cfg data true · fuel)
          ckv1_decode_ascend
        else ckv1_decode_ascend
        pure (.table acc2)
      else
        ckv1_parse std cfg data lt fuel (.arrLoopA isObject hasNest t4 i2 v2 acc2)
    | .arrLoopM t i acc => do
      let e ← ckv1_parse std cfg data lt fuel (.val t)
      let acc' := rawset acc (.num (.finite (qOfNat i))) e
      let t2 ← pmTok (ckv1_next_token std cfg data false · fuel)
      if t2.tok = .arrEnd then do
        ckv1_decode_ascend
        pure (.table acc')
      else do
        let t3 ← pmTok (ckv1_next_token std cfg data false · fuel)
        if t3.tok = .arrEnd then do
          ckv1_decode_ascend
          pure (.table acc')
        else
          ckv1_parse std cfg data lt fuel (.arrLoopM t3 (i + 1) acc')
    | .decTop t acc =>
      match t.tok with
      | .str s => do
        let ct ← pmTok (ckv1_next_token std cfg data false · fuel)
        let v ←
          if ct.tok = .colon then do
            let vt ← pmTok (ckv1_next_token std cfg data false · fuel)
            ckv1_parse std cfg data lt fuel (.val vt)
          else
            ckv1_parse std cfg data lt fuel (.val ct)
        let acc' := rawset acc (.str s) v
        let nt ← pmTok (ckv1_next_token std cfg data true · fuel)
        if nt.tok = .tEnd then pure (.table acc')
        else ckv1_parse std cfg data lt fuel (.decTop nt acc')
      | _ => pmFail "model: the source reads a stale token string payload here"
    | .decArrTop t i acc => do
      let e ← ckv1_parse std cfg data lt fuel (.val t)
      let acc1 := rawset acc (.num (.finite (qOfNat i))) e
      let t2 ← pmTok (ckv1_next_token std cfg data false · fuel)
      let (i2, acc2) ←
        if t2.tok = .colon then do
          let vt ← pmTok (ckv1_next_token std cfg data false · fuel)
          let e2 ← ckv1_parse std cfg data lt fuel (.val vt)
          pure (i + 2, rawset acc1 (.num (.finite (qOfNat (i + 1)))) e2)
        else do
          let e2 ← ckv1_parse std cfg data lt fuel (.val t2)
          pure (i + 2, rawset acc1 (.num (.finite (qOfNat (i + 1)))) e2)
      let nt ← pmTok (ckv1_next_token std cfg data true · fuel)
      if nt.tok = .tEnd then pure (.table acc2)
      else ckv1_parse std cfg data lt fuel (.decArrTop nt i2 acc2)

/-- Core of `ckv1_decode` (src/lua_kv1.c:1385-1456), `loadType` = map:
UTF-16/UTF-32 sniff, then a key/value sequence until END; a leading
`{` parses one object which itself becomes the result (the outer fresh
table is abandoned on the stack); any other first token leaves the
fresh empty table as the result. -/
def ckv1_decode_core (std : StrtodFn) (cfg : Cfg) (data : ByteStr) :
    Option (Except String (LuaValue × PSt)) :=
  if 2 ≤ data.length ∧ (byteAt data 0 = 0 ∨ byteAt data 1 = 0) then
    some (.error "KV parser does not support UTF-16 or UTF-32")
  else
    let fuel := decodeFuel data
    (do
      let t ← pmTok (ckv1_next_token std cfg data true · fuel)
      match t.tok with
      | .str _ => ckv1_parse std cfg data .map fuel (.decTop t [])
      | .objBegin => do
        let v ← ckv1_parse std cfg data .map fuel (.val t)
        let t2 ← pmTok (ckv1_next_token std cfg data false · fuel)
        if t2.tok = .tEnd then pure v
        else pmThrowParse "the end" t2
      | _ => pure (.table []) : ParseM LuaValue)
    ⟨0, 0, 0⟩

/-- `ckv1.decode` (src/lua_kv1.c:1385-1456). -/
def ckv1_decode (cfg : Cfg) (data : ByteStr) : Except String LuaValue :=
  runCore (ckv1_decode_core fpconv_strtod cfg data)

/-- Core of `ckv1_decode_array` (src/lua_kv1.c:1458-1535),
`loadType` = array: a leading `{` parses one object-shaped flat array
stored at index 1; an empty input yields the empty table; otherwise a
flat sequence of entries, a `=` after an entry folding the following
value in, until END. -/
def ckv1_decode_array_core (std : StrtodFn) (cfg : Cfg) (data : ByteStr) :
    Option (Except String (LuaValue × PSt)) :=
  if 2 ≤ data.length ∧ (byteAt data 0 = 0 ∨ byteAt data 1 = 0) then
    some (.error "KV parser does not support UTF-16 or UTF-32")
  else
    let fuel := decodeFuel data
    (do
      let t ← pmTok (ckv1_next_token std cfg data true · fuel)
      match t.tok with
      | .objBegin => do
        let v ← ckv1_parse std cfg data .array fuel (.val t)
        let t2 ← pmTok (ckv1_next_token std cfg data false · fuel)
        if t2.tok = .tEnd then pure (.table (rawset [] (.num (.finite (qOfNat 1))) v))
        else pmThrowParse "the end" t2
      | .tEnd => pure (.table [])
      | _ => ckv1_parse std cfg data .array fuel (.decArrTop t 1 []) : ParseM LuaValue)
    ⟨0, 0, 0⟩

/-- `ckv1.decode_array` (src/lua_kv1.c:1458-1535). -/
def ckv1_decode_array (cfg : Cfg) (data : ByteStr) : Except String LuaValue :=
  runCore (ckv1_decode_array_core fpconv_strtod cfg data)

/-- Model of `ckv1_append_string` (src/lua_kv1.c:282-309): as the KV0
version but with quoting controlled by `needQuote`. -/
def ckv1_append_string (v : LuaValue) (needQuote : Bool) : EncM ByteStr :=
  match luaToStr v with
  | some s =>
    if needQuote then pure (34 :: escapeStr s ++ [34]) else pure (escapeStr s)
  | none => emFail "model: lua_tolstring on a value that does not convert to a string"

/-- Model of `ckv1_append_number` (src/lua_kv1.c:445-481): textually
identical to the KV0 function. -/
def ckv1_append_number : Cfg → CDouble → EncM ByteStr := ckv_append_number

/-- Request selector merging KV1's mutually recursive emit functions
(`ckv1_append_data`, `ckv1_append_object` with its pair loop,
`ckv1_append_array` with its element loop, `ckv1_append_object_array`
with its two loops, and the top-level loops of `ckv1_encode` /
`ckv1_encode_array`). -/
inductive KV1EncReq where
  | data (depth : Nat) (quot : Bool) (v : Option LuaValue)
  | obj (depth : Nat) (pairs : List (LuaValue × LuaValue))
  | objPairs (depth : Nat) (pairs : List (LuaValue × LuaValue))
  | arr (depth : Nat) (t : List (LuaValue × LuaValue)) (len i : Nat)
  | objArr (depth : Nat) (t : List (LuaValue × LuaValue)) (len : Nat)
  | objArrPairs (depth : Nat) (t : List (LuaValue × LuaValue)) (len i : Nat)
  | objArrItems (depth : Nat) (t : List (LuaValue × LuaValue)) (len i : Nat)
  | top (first : Bool) (pairs : List (LuaValue × LuaValue))
  | topArr (t : List (LuaValue × LuaValue)) (maxN n : Nat)

/-- The KV1 emitter (src/lua_kv1.c:334-695).  Tables dispatch on the
`loadType` flag: array mode flows through `ckv1_append_object_array`
(which switches on the `__IsArray__` sentinel at slot 1), map mode
through `ckv1_append_array` when `lua_rawlen` is positive, else
`ckv1_append_object`.  Keys are emitted unquoted, values quoted; the
depth-indent loops copy the source's start offsets (2 resp. 3). -/
def ckv1_append (cfg : Cfg) (lt : LoadType) : Nat → KV1EncReq → EncM ByteStr
  | 0, _ => none
  | fuel + 1, req =>
    match req with
    | .data depth quot v =>
      match v with
      | some (.str s) => ckv1_append_string (.str s) quot
      | some (.num d) => ckv1_append_number cfg d
      | some (.boolean b) => pure (strBytes (if b then "true" else "false"))
      | some (.table pairs) => do
        let d := depth + 1
        checkEncodeDepth cfg d
        let len := rawlen pairs
        if lt = .array then ckv1_append cfg lt fuel (.objArr d pairs len)
        else if 0 < len then ckv1_append cfg lt fuel (.arr d pairs len 1)
        else ckv1_append cfg lt fuel (.obj d pairs)
      | none => pure (strBytes "null")
      | some .null => pure (strBytes "null")
    | .obj depth pairs => do
      let d := depth + 1
      let body ← ckv1_append cfg lt fuel (.objPairs d pairs)
      pure (123 :: body ++ [10] ++ tabs (d - 3) ++ [125])
    | .objPairs depth pairs =>
      match pairs with
      | [] => pure []
      | (k, v) :: rest => do
        let ks ←
          match k with
          | .num d => do
            let ns ← ckv1_append_number cfg d
            pure (ns ++ [61])
          | .str s => do
            let ss ← ckv1_append_string (.str s) false
            pure (ss ++ [61])
          | _ => encodeException (some k) "table key must be a number or string"
        let vs ← ckv1_append cfg lt fuel (.data depth true (some v))
        let more ← ckv1_append cfg lt fuel (.objPairs depth rest)
        pure (10 :: tabs (depth - 2) ++ ks ++ vs ++ more)
    | .arr depth t len i =>
      if len < i then pure (10 :: tabs (depth - 1) ++ [93])
      else do
        let es ← ckv1_append cfg lt fuel (.data depth true (rawgeti t i))
        let more ← ckv1_append cfg lt fuel (.arr depth t len (i + 1))
        let pre : ByteStr := if i = 1 then [91] else []
        pure (pre ++ 10 :: tabs depth ++ es ++ [44] ++ more)
    | .objArr depth t len => do
      let head ← (match rawgeti t 1 with
        | some e =>
          match luaToStr e with
          | some s => pure s
          | none => emFail "model: strcmp on a value that does not convert to a string"
        | none => emFail "model: strcmp on a NULL lua_tolstring (missing slot 1)")
      if head ≠ arrayFlag then do
        let body ← ckv1_append cfg lt fuel (.objArrPairs depth t len 1)
        pure (10 :: tabs (depth - 1) ++ [123, 10] ++ body ++ tabs (depth - 1) ++ [125])
      else do
        let body ← ckv1_append cfg lt fuel (.objArrItems depth t len 2)
        pure (10 :: tabs (depth - 1) ++ [91, 10] ++ body ++ tabs (depth - 1) ++ [93])
    | .objArrPairs depth t len i =>
      if len < i then pure []
      else do
        let ks ← ckv1_append cfg lt fuel (.data depth false (rawgeti t i))
        let vs ← ckv1_append cfg lt fuel (.data depth true (rawgeti t (i + 1)))
        let more ← ckv1_append cfg lt fuel (.objArrPairs depth t len (i + 2))
        pure (tabs depth ++ ks ++ [61] ++ vs ++ [10] ++ more)
    | .objArrItems depth t len i =>
      if len < i then pure []
      else do
        let es ← ckv1_append cfg lt fuel (.data depth false (rawgeti t i))
        let more ← ckv1_append cfg lt fuel (.objArrItems depth t len (i + 1))
        pure (tabs depth ++ [34] ++ es ++ [34, 44, 10] ++ more)
    | .top first pairs =>
      match pairs with
      | [] => pure []
      | (k, v) :: rest => do
        let nl : ByteStr := if first then [] else [10]
        let ks ←
          match k with
          | .num d => do
            let ns ← ckv1_append_number cfg d
            pure (ns ++ [61])
          | .str s => do
            let ss ← ckv1_append_string (.str s) false
            pure (ss ++ [61])
          | _ => encodeException (some k) "table key must be a number or string"
        let vs ← ckv1_append cfg lt fuel (.data 0 true (some v))
        let more ← ckv1_append cfg lt fuel (.top false rest)
        pure (nl ++ ks ++ vs ++ more)
    | .topArr t maxN n =>
      if maxN < n then pure []
      else do
        let nl : ByteStr := if 1 < n then [10] else []
        let e := rawgeti t n
        let es ← ckv1_append cfg lt fuel (.data 0 true e)
        match e with
        | some (.table _) => do
          let more ← ckv1_append cfg lt fuel (.topArr t maxN (n + 1))
          pure (nl ++ es ++ more)
        | _ => do
          let es2 ← ckv1_append cfg lt fuel (.data 0 true (rawgeti t (n + 1)))
          let more ← ckv1_append cfg lt fuel (.topArr t maxN (n + 2))
          pure (nl ++ es ++ es2 ++ more)

/-- `ckv1.encode` (src/lua_kv1.c:581-642), `loadType` = map: newline
separated `key=value` lines; keys unquoted, values quoted. -/
def ckv1_encode (cfg : Cfg) (v : LuaValue) : Except String ByteStr :=
  match v with
  | .table pairs => runEnc (ckv1_append cfg .map encodeFuel (.top true pairs))
  | _ => .error "model: encode expects a table"

/-- `ckv1.encode_array` (src/lua_kv1.c:644-695), `loadType` = array:
walks slots 1..rawlen, a non-table slot dragging the following slot
onto the same line. -/
def ckv1_encode_array (cfg : Cfg) (v : LuaValue) : Except String ByteStr :=
  match v with
  | .table pairs => runEnc (ckv1_append cfg .array encodeFuel (.topArr pairs (rawlen pairs) 1))
  | _ => .error "model: encode expects a table"

/-- The KV3 character-class table built by `ckv3_create_config`
(src/lua_kv3.c:155-199): identical to the KV1 table. -/
def ckv3_ch2token : Nat → TokClass := ckv1_ch2token

/-- Model of `ckv3_next_string_token` (src/lua_kv3.c:436-482):
textually identical to `ckv1_next_string_token`. -/
def ckv3_next_string_token : ByteStr → Nat → Nat → ScanRes := ckv1_next_string_token

/-- Model of `ckv3_next_token` (src/lua_kv3.c:490-583): whitespace
loop, the same `<!-- -->` handling as KV1, then a dispatch that—unlike
KV1—recognises only single-character tokens and quoted strings: bare
identifiers and numbers are "invalid token" errors. -/
def ckv3_dispatch (data : ByteStr) (pos : Nat) (ch : Nat) (fuel : Nat) : Option NTok :=
  let tc := ckv3_ch2token (byteAt data pos)
  if tc = .error then some ⟨.err "invalid token", pos, pos⟩
  else if tc = .tEnd then some ⟨.tEnd, pos, pos⟩
  else if tc = .objBegin then some ⟨.objBegin, pos, pos + 1⟩
  else if tc = .objEnd then some ⟨.objEnd, pos, pos + 1⟩
  else if tc = .arrBegin then some ⟨.arrBegin, pos, pos + 1⟩
  else if tc = .arrEnd then some ⟨.arrEnd, pos, pos + 1⟩
  else if tc = .comma then some ⟨.comma, pos, pos + 1⟩
  else if tc = .colon then some ⟨.colon, pos, pos + 1⟩
  else if ch = 34 then
    match ckv3_next_string_token data (pos + 1) fuel with
    | none => none
    | some (.error (m, ep)) => some ⟨.err m, ep, ep⟩
    | some (.ok (s, p')) => some ⟨.str s, pos, p'⟩
  else some ⟨.err "invalid token", pos, pos⟩

def ckv3_next_token (data : ByteStr) (pos : Nat) : Nat → Option NTok
  | 0 => none
  | fuel + 1 =>
    let ch := byteAt data pos
    if ckv3_ch2token ch = .whitespace then
      ckv3_next_token data (pos + 1) fuel
    else if ch = 60 then
      if byteAt data (pos + 1) = 33 ∧ byteAt data (pos + 2) = 45 ∧
          byteAt data (pos + 3) = 45 then
        match markSkip data (pos + 4) 0 fuel with
        | none => none
        | some p' =>
          match wsSkip data ckv3_ch2token p' fuel with
          | none => none
          | some p'' => ckv3_dispatch data p'' (byteAt data p'') fuel
      else ckv3_dispatch data pos (markProbeMismatch data pos) fuel
    else ckv3_dispatch data pos ch fuel

/-- Model of `ckv3_decode_descend` (src/lua_kv3.c:613-625): textually
identical to the KV0 function. -/
def ckv3_decode_descend : Cfg → ParseM Unit := ckv_decode_descend

/-- Model of `ckv3_decode_ascend` (src/lua_kv3.c:608-611). -/
def ckv3_decode_ascend : ParseM Unit := ckv_decode_ascend

/-- Results of the merged KV3 parse functions: a plain value, or the
key/value pair that `parse_object_internal` stores with `lua_rawset`. -/
inductive Out3 where
  | one (v : LuaValue)
  | two (k v : LuaValue)

/-- Request selector merging KV3's mutually recursive parse functions
(`ckv3_process_value`, `parse_object_internal`,
`ckv3_parse_object_context` with its loop, `ckv3_parse_array_context`
with its look-ahead loop, and the top-level loop of `ckv3_decode`). -/
inductive KV3Req where
  | val (t : NTok)
  | objInternal (t : NTok)
  | objCtx
  | objLoop (t : NTok) (acc : List (LuaValue × LuaValue))
  | arrCtx
  | arrLoop (t : NTok) (i : Nat) (acc : List (LuaValue × LuaValue))
  | decTop (t : NTok) (acc : List (LuaValue × LuaValue))

/-- The KV3 recursive-descent parser (src/lua_kv3.c:627-853).
`objInternal` wraps a string-valued entry as `[tag, value]`;
`arrLoop` implements the one-token look-ahead of claim C3: after an
element value, a COMMA or ARR_END stores it plainly, anything else
turns it into a type tag wrapped with the next value (the tag read
back through `lua_tolstring`, undefined in the source for tables).
Where the source would push a stale token payload (top-level loop with
a non-string token), the model raises an explicit error. -/
def ckv3_parse (cfg : Cfg) (data : ByteStr) : Nat → KV3Req → ParseM Out3
  | 0, _ => fun _ => none
  | fuel + 1, req =>
    match req with
    | .val t =>
      match t.tok with
      | .str s => pure (.one (.str s))
      | .objBegin => ckv3_parse cfg data fuel .objCtx
      | .arrBegin => ckv3_parse cfg data fuel .arrCtx
      | _ => pmThrowParse "value" t
    | .objInternal t =>
      match t.tok with
      | .str s => do
        let nt ← pmTok (ckv3_next_token data · fuel)
        match nt.tok with
        | .str ty => do
          let vt ← pmTok (ckv3_next_token data · fuel)
          let v ← ckv3_parse cfg data fuel (.val vt)
          match v with
          | .one v' =>
            pure (.two (.str s)
              (.table (rawset (rawset [] (.num (.finite (qOfNat 1))) (.str ty)) (.num (.finite (qOfNat 2))) v')))
          | .two _ _ => pmFail "model: unreachable parse result"
        | .objBegin => do
          let v ← ckv3_parse cfg data fuel (.val nt)
          match v with
          | .one v' => pure (.two (.str s) v')
          | .two _ _ => pmFail "model: unreachable parse result"
        | .arrBegin => do
          let v ← ckv3_parse cfg data fuel (.val nt)
          match v with
          | .one v' => pure (.two (.str s) v')
          | .two _ _ => pmFail "model: unreachable parse result"
        | _ => pmThrowParse "unexpected token" nt
      | _ => pmFail "model: the source reads a stale token string payload here"
    | .objCtx => do
      ckv3_decode_descend cfg
      let t ← pmTok (ckv3_next_token data · fuel)
      if t.tok = .objEnd then do
        ckv3_decode_ascend
        pure (.one (.table []))
      else
        ckv3_parse cfg data fuel (.objLoop t [])
    | .objLoop t acc =>
      match t.tok with
      | .str _ => do
        let r ← ckv3_parse cfg data fuel (.objInternal t)
        match r with
        | .two k v => do
          let acc' := rawset acc k v
          let nt ← pmTok (ckv3_next_token data · fuel)
          if nt.tok = .objEnd then do
            ckv3_decode_ascend
            pure (.one (.table acc'))
          else
            ckv3_parse cfg data fuel (.objLoop nt acc')
        | .one _ => pmFail "model: unreachable parse result"
      | _ => pmThrowParse "object key string" t
    | .arrCtx => do
      ckv3_decode_descend cfg
      let t ← pmTok (ckv3_next_token data · fuel)
      if t.tok = .arrEnd then do
        ckv3_decode_ascend
        pure (.one (.table []))
      else
        ckv3_parse cfg data fuel (.arrLoop t 1 [])
    | .arrLoop t i acc => do
      let v ← ckv3_parse cfg data fuel (.val t)
      match v with
      | .two _ _ => pmFail "model: unreachable parse result"
      | .one v' => do
        let t2 ← pmTok (ckv3_next_token data · fuel)
        if t2.tok = .comma then do
          let acc' := rawset acc (.num (.finite (qOfNat i))) v'
          let t3 ← pmTok (ckv3_next_token data · fuel)
          if t3.tok = .arrEnd then do
            ckv3_decode_ascend
            pure (.one (.table acc'))
          else
            ckv3_parse cfg data fuel (.arrLoop t3 (i + 1) acc')
        else if t2.tok = .arrEnd then do
          let acc' := rawset acc (.num (.finite (qOfNat i))) v'
          ckv3_decode_ascend
          pure (.one (.table acc'))
        else do
          let keyName ←
            match luaToStr v' with
            | some s => pure s
            | none =>
              (pmFail "model: lua_tolstring on a table (undefined in source)" :
                ParseM ByteStr)
          let e ← ckv3_parse cfg data fuel (.val t2)
          match e with
          | .two _ _ => pmFail "model: unreachable parse result"
          | .one e' => do
            let wrapped : LuaValue :=
              .table (rawset (rawset [] (.num (.finite (qOfNat 1))) (.str keyName)) (.num (.finite (qOfNat 2))) e')
            let acc' := rawset acc (.num (.finite (qOfNat i))) wrapped
            let t4 ← pmTok (ckv3_next_token data · fuel)
            if t4.tok = .comma then do
              let t5 ← pmTok (ckv3_next_token data · fuel)
              if t5.tok = .arrEnd then do
                ckv3_decode_ascend
                pure (.one (.table acc'))
              else
                ckv3_parse cfg data fuel (.arrLoop t5 (i + 1) acc')
            else if t4.tok = .arrEnd then do
              ckv3_decode_ascend
              pure (.one (.table acc'))
            else
              ckv3_parse cfg data fuel (.arrLoop t4 (i + 1) acc')
    | .decTop t acc => do
      let r ← ckv3_parse cfg data fuel (.objInternal t)
      match r with
      | .two k v => do
        let acc' := rawset acc k v
        let nt ← pmTok (ckv3_next_token data · fuel)
        if nt.tok = .tEnd then pure (.one (.table acc'))
        else ckv3_parse cfg data fuel (.decTop nt acc')
      | .one _ => pmFail "model: unreachable parse result"

/-- Core of `ckv3_decode` (src/lua_kv3.c:803-853): UTF-16/UTF-32
sniff, then a `key value` sequence until END; a non-string first token
raises "Must begin with string". -/
def ckv3_decode_core (cfg : Cfg) (data : ByteStr) :
    Option (Except String (LuaValue × PSt)) :=
  if 2 ≤ data.length ∧ (byteAt data 0 = 0 ∨ byteAt data 1 = 0) then
    some (.error "KV parser does not support UTF-16 or UTF-32")
  else
    let fuel := decodeFuel data
    (do
      let t ← pmTok (ckv3_next_token data · fuel)
      match t.tok with
      | .str _ => do
        let r ← ckv3_parse cfg data fuel (.decTop t [])
        match r with
        | .one v => pure v
        | .two _ _ => pmFail "model: unreachable parse result"
      | _ => pmThrowParse "Must begin with string" t : ParseM LuaValue)
    ⟨0, 0, 0⟩

/-- `ckv3.decode` (src/lua_kv3.c:803-853). -/
def ckv3_decode (cfg : Cfg) (data : ByteStr) : Except String LuaValue :=
  runCore (ckv3_decode_core cfg data)

/-- Model of `ckv3_append_string` (src/lua_kv3.c:219-243): always
quoted, bytes escaped through `char2escape`, the value coerced with
`lua_tolstring`. -/
def ckv3_append_string (v : LuaValue) : EncM ByteStr := ckv_append_string v

/-- Request selector merging KV3's mutually recursive emit functions
(`ckv3_append_data`, `ckv3_append_object` with its pair loop,
`ckv3_append_array` with its element loop, and the top-level loop of
`ckv3_encode`). -/
inductive KV3EncReq where
  | data (depth : Nat) (v : Option LuaValue)
  | obj (depth : Nat) (pairs : List (LuaValue × LuaValue))
  | objPairs (depth : Nat) (pairs : List (LuaValue × LuaValue))
  | arr (depth : Nat) (t : List (LuaValue × LuaValue)) (len i : Nat)
  | top (first : Bool) (pairs : List (LuaValue × LuaValue))

/-- The KV3 emitter (src/lua_kv3.c:268-422).  Only strings and tables
are encodable; `ckv3_append_object` unconditionally runs every entry
value through `lua_rawlen` + `ckv3_append_array` (undefined in the
source for non-table entry values, reported explicitly here); arrays
put commas between elements but not after the last. -/
def ckv3_append (cfg : Cfg) : Nat → KV3EncReq → EncM ByteStr
  | 0, _ => none
  | fuel + 1, req =>
    match req with
    | .data depth v =>
      match v with
      | some (.str s) => ckv3_append_string (.str s)
      | some (.table pairs) => do
        let d := depth + 1
        checkEncodeDepth cfg d
        let len := rawlen pairs
        if 0 < len then ckv3_append cfg fuel (.arr d pairs len 1)
        else ckv3_append cfg fuel (.obj d pairs)
      | v' => encodeException v' "type not supported"
    | .obj depth pairs => do
      let d := depth + 1
      let body ← ckv3_append cfg fuel (.objPairs d pairs)
      pure (123 :: body ++ [10] ++ tabs (d - 3) ++ [125])
    | .objPairs depth pairs =>
      match pairs with
      | [] => pure []
      | (k, v) :: rest => do
        let ks ← ckv3_append_string k
        let inner ←
          match v with
          | .table vp => ckv3_append cfg fuel (.arr depth vp (rawlen vp) 1)
          | _ => emFail "model: lua_rawgeti on a non-table entry value (undefined in source)"
        let more ← ckv3_append cfg fuel (.objPairs depth rest)
        pure (10 :: tabs (depth - 2) ++ ks ++ [32] ++ inner ++ more)
    | .arr depth t len i =>
      if len < i then
        let pre : ByteStr := if i = 1 then [91] else []
        pure (pre ++ 10 :: tabs (depth - 1) ++ [93])
      else do
        let es ← ckv3_append cfg fuel (.data depth (rawgeti t i))
        let more ← ckv3_append cfg fuel (.arr depth t len (i + 1))
        let pre : ByteStr := if i = 1 then [91] else []
        let sep : ByteStr := if i < len then [44] else []
        pure (pre ++ 10 :: es ++ sep ++ more)
    | .top first pairs =>
      match pairs with
      | [] => pure []
      | (k, v) :: rest => do
        let nl : ByteStr := if first then [] else [10]
        let ks ←
          match k with
          | .str s => do
            let ss ← ckv3_append_string (.str s)
            pure (ss ++ [32])
          | _ => encodeException (some k) "table key must be a string"
        let vs ← ckv3_append cfg fuel (.data 0 (some v))
        let more ← ckv3_append cfg fuel (.top false rest)
        pure (nl ++ ks ++ vs ++ more)

/-- `ckv3.encode` (src/lua_kv3.c:365-422). -/
def ckv3_encode (cfg : Cfg) (v : LuaValue) : Except String ByteStr :=
  match v with
  | .table pairs => runEnc (ckv3_append cfg encodeFuel (.top true pairs))
  | _ => .error "model: encode expects a table"

/-- Model of `luaL_checklstring` on argument 1: strings pass through,
numbers are coerced via `%.14g`, anything else raises the Lua type
error. -/
def checklstring (v : LuaValue) : Except String ByteStr :=
  match v with
  | .str s => .ok s
  | .num d => .ok (fpconv_g_fmt 14 d)
  | _ => .error "string expected"

/-- Every exported operation opens with
`luaL_argcheck(l, lua_gettop(l) == 1, 1, "expected 1 argument")`
(src/lua_kv.c:669,709,1289,1544,1588; src/lua_kv1.c:590,653,1392,1465;
src/lua_kv3.c:373,809): the raised message when the argument count is
not exactly one.  The configuration helpers' `ckv_arg_init`
(src/lua_kv.c:103-112) - not an exported operation - is where
"found too many arguments" lives. -/
def arityMsg : String := "expected 1 argument"

/-- `ckv.encode` as called from Lua: one argument in, one result out. -/
def ckv_encode_entry (cfg : Cfg) (args : List LuaValue) : Except String ByteStr :=
  match args with
  | [v] => ckv_encode cfg v
  | _ => .error arityMsg

/-- `ckv.encode2` as called from Lua. -/
def ckv_encode2_entry (cfg : Cfg) (args : List LuaValue) : Except String ByteStr :=
  match args with
  | [v] => ckv_encode2 cfg v
  | _ => .error arityMsg

/-- `ckv.decode` as called from Lua. -/
def ckv_decode_entry (cfg : Cfg) (args : List LuaValue) : Except String LuaValue :=
  match args with
  | [v] => do
    let s ← checklstring v
    ckv_decode cfg s
  | _ => .error arityMsg

/-- `ckv.decode2` as called from Lua. -/
def ckv_decode2_entry (cfg : Cfg) (args : List LuaValue) : Except String LuaValue :=
  match args with
  | [v] => do
    let s ← checklstring v
    ckv_decode2 cfg s
  | _ => .error arityMsg

/-- `ckv.decode_file_array` as called from Lua
(src/lua_kv.c:1586-1597): the arity check happens before anything
else; the body (file loading and the include-resolver pre-pass) is
file I/O, kept abstract as `body`. -/
def ckv_decode_file_array_entry (body : LuaValue → Except String LuaValue)
    (args : List LuaValue) : Except String LuaValue :=
  match args with
  | [v] => body v
  | _ => .error arityMsg

/-- `ckv1.encode` as called from Lua. -/
def ckv1_encode_entry (cfg : Cfg) (args : List LuaValue) : Except String ByteStr :=
  match args with
  | [v] => ckv1_encode cfg v
  | _ => .error arityMsg

/-- `ckv1.encode_array` as called from Lua. -/
def ckv1_encode_array_entry (cfg : Cfg) (args : List LuaValue) : Except String ByteStr :=
  match args with
  | [v] => ckv1_encode_array cfg v
  | _ => .error arityMsg

/-- `ckv1.decode` as called from Lua. -/
def ckv1_decode_entry (cfg : Cfg) (args : List LuaValue) : Except String LuaValue :=
  match args with
  | [v] => do
    let s ← checklstring v
    ckv1_decode cfg s
  | _ => .error arityMsg

/-- `ckv1.decode_array` as called from Lua. -/
def ckv1_decode_array_entry (cfg : Cfg) (args : List LuaValue) : Except String LuaValue :=
  match args with
  | [v] => do
    let s ← checklstring v
    ckv1_decode_array cfg s
  | _ => .error arityMsg

/-- `ckv3.encode` as called from Lua. -/
def ckv3_encode_entry (cfg : Cfg) (args : List LuaValue) : Except String ByteStr :=
  match args with
  | [v] => ckv3_encode cfg v
  | _ => .error arityMsg

/-- `ckv3.decode` as called from Lua. -/
def ckv3_decode_entry (cfg : Cfg) (args : List LuaValue) : Except String LuaValue :=
  match args with
  | [v] => do
    let s ← checklstring v
    ckv3_decode cfg s
  | _ => .error arityMsg

/-- Spec-level quoted-string scanner for KV1/KV3, written from the
spec's words (§4.3a): a `"` closes the literal (consumed); a NUL
mid-string is "unexpected end of string"; `\u` escapes are not
decoded; each maximal run of one or more consecutive backslash bytes
(`slashRun`) is collapsed into a single '/' byte emitted immediately
before the byte that follows the run, that byte being consumed with
it.  Claim C4 proves `ckv1_next_string_token` (and its identical KV3
twin) equal to this function. -/
def kv1_collapse_scan_spec (data : ByteStr) (pos : Nat) : Nat → ScanRes
  | 0 => none
  | fuel + 1 =>
    let ch := byteAt data pos
    if ch = 34 then some (.ok ([], pos + 1))
    else if ch = 0 then some (.error ("unexpected end of string", pos))
    else if ch = 92 then
      let r := slashRun (data.drop pos)
      let ch' := byteAt data (pos + r)
      scanMap (fun s => 47 :: ch' :: s) (kv1_collapse_scan_spec data (pos + r + 1) fuel)
    else scanMap (fun s => ch :: s) (kv1_collapse_scan_spec data (pos + 1) fuel)

/-- The syntactic shapes claim C6 ascribes to the invalid-number
prefilter, written from the claim's words: a leading '+'; after an
optional '-', a leading '0' followed by 'x'/'X' or by a digit; or a
case-insensitive 'inf' or 'nan' prefix. -/
def invalidNumberShape (data : ByteStr) (pos : Nat) : Prop :=
  byteAt data pos = 43 ∨
  (let p := if byteAt data pos = 45 then pos + 1 else pos
   (byteAt data p = 48 ∧
     (lowerB (byteAt data (p + 1)) = 120 ∨
      (48 ≤ byteAt data (p + 1) ∧ byteAt data (p + 1) ≤ 57))) ∨
   (lowerB (byteAt data p) = 105 ∧ lowerB (byteAt data (p + 1)) = 110 ∧
    lowerB (byteAt data (p + 2)) = 102) ∨
   (lowerB (byteAt data p) = 110 ∧ lowerB (byteAt data (p + 1)) = 97 ∧
    lowerB (byteAt data (p + 2)) = 110))

/-- Plain string content for the KV0 string-literal lemmas: no quote,
no backslash, no NUL. -/
def PlainBytes (l : ByteStr) : Prop := ∀ c ∈ l, c ≠ 34 ∧ c ≠ 92 ∧ c ≠ 0

/-- Peak-boundedness predicate for claim C2: a parser computation
preserves the invariant that the ghost `peak` field (the largest
nesting depth any descend has reached) stays within `D` across every
successful step. -/
def PresP (D : Nat) {α : Type} (m : ParseM α) : Prop :=
  ∀ st a st', m st = some (.ok (a, st')) → st.peak ≤ D → st'.peak ≤ D

/-! ### Theorems

Helper lemmas come first, then one theorem per claim (with its witness
or counterexample where required). -/

/-- Unfolding a successful scenario input to its byte list keeps the
costly evaluations on literal lists. -/
theorem strBytes_c1_kv0_in :
    strBytes "\"root\"\t\x7b \"a\"\t\"1\" \"b\"\t\"2\" \x7d" =
      [34, 114, 111, 111, 116, 34, 9, 123, 32, 34, 97, 34, 9, 34, 49, 34, 32,
       34, 98, 34, 9, 34, 50, 34, 32, 125] := by decide

theorem strBytes_c1_kv0_out :
    strBytes "\"root\"\t\x7b\"a\"\t\"1\"\"b\"\t\"2\"\x7d" =
      [34, 114, 111, 111, 116, 34, 9, 123, 34, 97, 34, 9, 34, 49, 34, 34, 98,
       34, 9, 34, 50, 34, 125] := by decide

theorem strBytes_c1_kv1_in :
    strBytes "key=value\nnum=42" =
      [107, 101, 121, 61, 118, 97, 108, 117, 101, 10, 110, 117, 109, 61, 52, 50] := by decide

theorem strBytes_c1_kv1_out :
    strBytes "key=\"value\"\nnum=42" =
      [107, 101, 121, 61, 34, 118, 97, 108, 117, 101, 34, 10, 110, 117, 109,
       61, 52, 50] := by decide

theorem strBytes_c1_kv3_in :
    strBytes "\"pos\" \"vector3\" [ \"1\", \"2\", \"3\" ]" =
      [34, 112, 111, 115, 34, 32, 34, 118, 101, 99, 116, 111, 114, 51, 34, 32,
       91, 32, 34, 49, 34, 44, 32, 34, 50, 34, 44, 32, 34, 51, 34, 32, 93] := by decide

theorem strBytes_c1_kv3_out :
    strBytes "\"pos\" [\n\"vector3\",\n[\n\"1\",\n\"2\",\n\"3\"\n\t]\n]" =
      [34, 112, 111, 115, 34, 32, 91, 10, 34, 118, 101, 99, 116, 111, 114, 51,
       34, 44, 10, 91, 10, 34, 49, 34, 44, 10, 34, 50, 34, 44, 10, 34, 51, 34,
       10, 9, 93, 10, 93] := by decide

set_option maxHeartbeats 1000000 in
theorem c1_kv0_dec :
    ckv_decode cfg0 (strBytes "\"root\"\t\x7b \"a\"\t\"1\" \"b\"\t\"2\" \x7d") =
      .ok (.table [(.str (strBytes "root"), .table
        [(.str (strBytes "a"), .str (strBytes "1")),
         (.str (strBytes "b"), .str (strBytes "2"))])]) := by
  rw [strBytes_c1_kv0_in]; exact rfl

set_option maxHeartbeats 1000000 in
theorem c1_kv0_enc :
    ckv_encode cfg0 (.table [(.str (strBytes "root"), .table
        [(.str (strBytes "a"), .str (strBytes "1")),
         (.str (strBytes "b"), .str (strBytes "2"))])]) =
      .ok (strBytes "\"root\"\t\x7b\"a\"\t\"1\"\"b\"\t\"2\"\x7d") := by
  rw [strBytes_c1_kv0_out]; exact rfl

set_option maxHeartbeats 1000000 in
theorem c1_kv0_redec :
    ckv_decode cfg0 (strBytes "\"root\"\t\x7b\"a\"\t\"1\"\"b\"\t\"2\"\x7d") =
      .ok (.table [(.str (strBytes "root"), .table
        [(.str (strBytes "a"), .str (strBytes "1")),
         (.str (strBytes "b"), .str (strBytes "2"))])]) := by
  rw [strBytes_c1_kv0_out]; exact rfl

set_option maxHeartbeats 1000000 in
theorem c1_kv1_dec :
    ckv1_decode cfg0 (strBytes "key=value\nnum=42") =
      .ok (.table [(.str (strBytes "key"), .str (strBytes "value")),
                   (.str (strBytes "num"), .num (.finite 42))]) := by
  rw [strBytes_c1_kv1_in]; exact rfl

set_option maxHeartbeats 1000000 in
theorem c1_kv1_enc :
    ckv1_encode cfg0 (.table [(.str (strBytes "key"), .str (strBytes "value")),
                              (.str (strBytes "num"), .num (.finite 42))]) =
      .ok (strBytes "key=\"value\"\nnum=42") := by
  rw [strBytes_c1_kv1_out]; exact rfl

set_option maxHeartbeats 1000000 in
theorem c1_kv1_redec :
    ckv1_decode cfg0 (strBytes "key=\"value\"\nnum=42") =
      .ok (.table [(.str (strBytes "key"), .str (strBytes "value")),
                   (.str (strBytes "num"), .num (.finite 42))]) := by
  rw [strBytes_c1_kv1_out]; exact rfl

set_option maxHeartbeats 1000000 in
theorem c1_kv3_dec :
    ckv3_decode cfg0 (strBytes "\"pos\" \"vector3\" [ \"1\", \"2\", \"3\" ]") =
      .ok (.table [(.str (strBytes "pos"), .table
        [(.num (.finite 1), .str (strBytes "vector3")),
         (.num (.finite 2), .table
           [(.num (.finite 1), .str (strBytes "1")),
            (.num (.finite 2), .str (strBytes "2")),
            (.num (.finite 3), .str (strBytes "3"))])])]) := by
  rw [strBytes_c1_kv3_in]; exact rfl

set_option maxHeartbeats 1000000 in
theorem c1_kv3_enc :
    ckv3_encode cfg0 (.table [(.str (strBytes "pos"), .table
        [(.num (.finite 1), .str (strBytes "vector3")),
         (.num (.finite 2), .table
           [(.num (.finite 1), .str (strBytes "1")),
            (.num (.finite 2), .str (strBytes "2")),
            (.num (.finite 3), .str (strBytes "3"))])])]) =
      .ok (strBytes "\"pos\" [\n\"vector3\",\n[\n\"1\",\n\"2\",\n\"3\"\n\t]\n]") := by
  rw [strBytes_c1_kv3_out]; exact rfl

set_option maxHeartbeats 1000000 in
theorem c1_kv3_redec :
    ckv3_decode cfg0 (strBytes "\"pos\" [\n\"vector3\",\n[\n\"1\",\n\"2\",\n\"3\"\n\t]\n]") =
      .ok (.table [(.str (strBytes "pos"), .table
        [(.num (.finite 1), .str (strBytes "vector3")),
         (.num (.finite 2), .table
           [(.num (.finite 1), .str (strBytes "1")),
            (.num (.finite 2), .str (strBytes "2")),
            (.num (.finite 3), .str (strBytes "3"))])])]) := by
  rw [strBytes_c1_kv3_out]; exact rfl

/-- The forcing combinators are identities. -/
theorem forceNat_eq {α : Type} (n : Nat) (k : Nat → α) : forceNat n k = k n := by
  cases n <;> rfl

theorem forceList_eq {α : Type} (l : List Nat) (k : List Nat → α) : forceList l k = k l := by
  induction l generalizing k with
  | nil => rfl
  | cons c rest ih => simp [forceList, forceNat_eq, ih]

theorem forceTok_eq {α : Type} (t : Tok) (k : Tok → α) : forceTok t k = k t := by
  cases t <;> simp [forceTok, forceList_eq]

theorem forceNTok_eq {α : Type} (t : NTok) (k : NTok → α) : forceNTok t k = k t := by
  cases t with
  | mk tok i p => simp [forceNTok, forceTok_eq, forceNat_eq]

/-- Claim C1 (corrected).  The round trip `decode ∘ encode` is the
identity on the trees decoded from the spec's own scenario inputs of
each dialect: KV0 minimal, KV1 unquoted, KV3 typed element.  (It fails
in general; see the counterexample.) -/
theorem C1_roundtrip_scenarios :
    (ckv_decode cfg0 (strBytes "\"root\"\t\x7b \"a\"\t\"1\" \"b\"\t\"2\" \x7d") =
        .ok (.table [(.str (strBytes "root"), .table
          [(.str (strBytes "a"), .str (strBytes "1")),
           (.str (strBytes "b"), .str (strBytes "2"))])]) ∧
      ckv_encode cfg0 (.table [(.str (strBytes "root"), .table
          [(.str (strBytes "a"), .str (strBytes "1")),
           (.str (strBytes "b"), .str (strBytes "2"))])]) =
        .ok (strBytes "\"root\"\t\x7b\"a\"\t\"1\"\"b\"\t\"2\"\x7d") ∧
      ckv_decode cfg0 (strBytes "\"root\"\t\x7b\"a\"\t\"1\"\"b\"\t\"2\"\x7d") =
        .ok (.table [(.str (strBytes "root"), .table
          [(.str (strBytes "a"), .str (strBytes "1")),
           (.str (strBytes "b"), .str (strBytes "2"))])])) ∧
    (ckv1_decode cfg0 (strBytes "key=value\nnum=42") =
        .ok (.table [(.str (strBytes "key"), .str (strBytes "value")),
                     (.str (strBytes "num"), .num (.finite 42))]) ∧
      ckv1_encode cfg0 (.table [(.str (strBytes "key"), .str (strBytes "value")),
                                (.str (strBytes "num"), .num (.finite 42))]) =
        .ok (strBytes "key=\"value\"\nnum=42") ∧
      ckv1_decode cfg0 (strBytes "key=\"value\"\nnum=42") =
        .ok (.table [(.str (strBytes "key"), .str (strBytes "value")),
                     (.str (strBytes "num"), .num (.finite 42))])) ∧
    (ckv3_decode cfg0 (strBytes "\"pos\" \"vector3\" [ \"1\", \"2\", \"3\" ]") =
        .ok (.table [(.str (strBytes "pos"), .table
          [(.num (.finite 1), .str (strBytes "vector3")),
           (.num (.finite 2), .table
             [(.num (.finite 1), .str (strBytes "1")),
              (.num (.finite 2), .str (strBytes "2")),
              (.num (.finite 3), .str (strBytes "3"))])])]) ∧
      ckv3_encode cfg0 (.table [(.str (strBytes "pos"), .table
          [(.num (.finite 1), .str (strBytes "vector3")),
           (.num (.finite 2), .table
             [(.num (.finite 1), .str (strBytes "1")),
              (.num (.finite 2), .str (strBytes "2")),
              (.num (.finite 3), .str (strBytes "3"))])])]) =
        .ok (strBytes "\"pos\" [\n\"vector3\",\n[\n\"1\",\n\"2\",\n\"3\"\n\t]\n]") ∧
      ckv3_decode cfg0 (strBytes "\"pos\" [\n\"vector3\",\n[\n\"1\",\n\"2\",\n\"3\"\n\t]\n]") =
        .ok (.table [(.str (strBytes "pos"), .table
          [(.num (.finite 1), .str (strBytes "vector3")),
           (.num (.finite 2), .table
             [(.num (.finite 1), .str (strBytes "1")),
              (.num (.finite 2), .str (strBytes "2")),
              (.num (.finite 3), .str (strBytes "3"))])])])) :=
  ⟨⟨c1_kv0_dec, c1_kv0_enc, c1_kv0_redec⟩,
   ⟨c1_kv1_dec, c1_kv1_enc, c1_kv1_redec⟩,
   ⟨c1_kv3_dec, c1_kv3_enc, c1_kv3_redec⟩⟩

/-- Claim C1, counterexample.  For the KV1 input `a="\""`, decode
yields the string `/"` (the scanner collapses the backslash run into
'/'); re-encoding escapes the quote as `\"`, and decoding that yields
`//"`: so `decode (encode (decode x)) ≠ decode x` - the claimed
round-trip identity fails on the image of decode. -/
theorem C1_counterexample :
    ckv1_decode cfg0 (strBytes "a=\"\\\"\"") =
      .ok (.table [(.str (strBytes "a"), .str [47, 34])]) ∧
    ckv1_encode cfg0 (.table [(.str (strBytes "a"), .str [47, 34])]) =
      .ok (strBytes "a=\"/\\\"\"") ∧
    ckv1_decode cfg0 (strBytes "a=\"/\\\"\"") =
      .ok (.table [(.str (strBytes "a"), .str [47, 47, 34])]) ∧
    ckv1_decode cfg0 (strBytes "a=\"/\\\"\"") ≠
      .ok (.table [(.str (strBytes "a"), .str [47, 34])]) := by
  refine ⟨rfl, rfl, rfl, ?_⟩
  intro h
  rw [show ckv1_decode cfg0 (strBytes "a=\"/\\\"\"") =
      .ok (.table [(.str (strBytes "a"), .str [47, 47, 34])]) from rfl] at h
  simp at h

theorem strBytes_c3_main :
    strBytes "\"data\" [ \"1\", \"int\" \"2\", \"3\" ]" =
      [34, 100, 97, 116, 97, 34, 32, 91, 32, 34, 49, 34, 44, 32, 34, 105, 110,
       116, 34, 32, 34, 50, 34, 44, 32, 34, 51, 34, 32, 93] := by decide

theorem strBytes_c3_trailing :
    strBytes "\"data\" [ \"1\", ]" =
      [34, 100, 97, 116, 97, 34, 32, 91, 32, 34, 49, 34, 44, 32, 93] := by decide

theorem strBytes_c3_tag :
    strBytes "\"data\" [ \"1\" \"2\" ]" =
      [34, 100, 97, 116, 97, 34, 32, 91, 32, 34, 49, 34, 32, 34, 50, 34, 32, 93] := by decide

set_option maxHeartbeats 1000000 in
theorem c3_main :
    ckv3_decode cfg0 (strBytes "\"data\" [ \"1\", \"int\" \"2\", \"3\" ]") =
      .ok (.table [(.str (strBytes "data"), .table
        [(.num (.finite 1), .str (strBytes "1")),
         (.num (.finite 2), .table [(.num (.finite 1), .str (strBytes "int")),
                                    (.num (.finite 2), .str (strBytes "2"))]),
         (.num (.finite 3), .str (strBytes "3"))])]) := by
  rw [strBytes_c3_main]; exact rfl

set_option maxHeartbeats 1000000 in
theorem c3_trailing :
    ckv3_decode cfg0 (strBytes "\"data\" [ \"1\", ]") =
      .ok (.table [(.str (strBytes "data"), .table
        [(.num (.finite 1), .str (strBytes "1"))])]) := by
  rw [strBytes_c3_trailing]; exact rfl

set_option maxHeartbeats 1000000 in
theorem c3_tag :
    ckv3_decode cfg0 (strBytes "\"data\" [ \"1\" \"2\" ]") =
      .ok (.table [(.str (strBytes "data"), .table
        [(.num (.finite 1), .table [(.num (.finite 1), .str (strBytes "1")),
                                    (.num (.finite 2), .str (strBytes "2"))])])]) := by
  rw [strBytes_c3_tag]; exact rfl

/-- Claim C3 (corrected).  The KV3 array look-ahead works as described
- after a first value, COMMA or ARR_END stores it plainly, anything
else makes it a type tag wrapped as `[tag, value]`, and a trailing
comma is accepted - but only for quoted-string/container elements:
the KV3 tokenizer has no bare-identifier or number tokens, so the
claim's concrete input is a lexical error (see the counterexample).
With quoted literals: `"data" [ "1", "int" "2", "3" ]` decodes to
`{ data: ["1", ["int","2"], "3"] }`, `"data" [ "1", ]` to
`{ data: ["1"] }`, and `"data" [ "1" "2" ]` to
`{ data: [["1","2"]] }`. -/
theorem C3_kv3_array_lookahead :
    ckv3_decode cfg0 (strBytes "\"data\" [ \"1\", \"int\" \"2\", \"3\" ]") =
      .ok (.table [(.str (strBytes "data"), .table
        [(.num (.finite 1), .str (strBytes "1")),
         (.num (.finite 2), .table [(.num (.finite 1), .str (strBytes "int")),
                                    (.num (.finite 2), .str (strBytes "2"))]),
         (.num (.finite 3), .str (strBytes "3"))])]) ∧
    ckv3_decode cfg0 (strBytes "\"data\" [ \"1\", ]") =
      .ok (.table [(.str (strBytes "data"), .table
        [(.num (.finite 1), .str (strBytes "1"))])]) ∧
    ckv3_decode cfg0 (strBytes "\"data\" [ \"1\" \"2\" ]") =
      .ok (.table [(.str (strBytes "data"), .table
        [(.num (.finite 1), .table [(.num (.finite 1), .str (strBytes "1")),
                                    (.num (.finite 2), .str (strBytes "2"))])])]) :=
  ⟨c3_main, c3_trailing, c3_tag⟩

/-- Claim C3, counterexample.  The claim's concrete input
`data [ 1, "int" 2, 3 ]` does not decode to a tree at all: the bare
identifier `data` is already an "invalid token" to the KV3 tokenizer
and decode raises instead of returning `{ data: [1, ["int", 2], 3] }`. -/
theorem C3_counterexample :
    ckv3_decode cfg0 (strBytes "data [ 1, \"int\" 2, 3 ]") =
      .error "Expected Must begin with string but found invalid token at character 1" := by
  rw [show strBytes "data [ 1, \"int\" 2, 3 ]" =
    [100, 97, 116, 97, 32, 91, 32, 49, 44, 32, 34, 105, 110, 116, 34, 32, 50,
     44, 32, 51, 32, 93] from by decide]
  exact rfl

/-- Claim C7 (corrected).  KV1 decode of `key=value` LF `num=42` gives
`{ key: "value", num: 42 }` as claimed, but KV1 encode of that tree
emits string values quoted: the result is `key="value"` LF `num=42`,
not the claimed `key=value` LF `num=42` (keys and numbers are bare,
string values are not). -/
theorem C7_kv1_unquoted_scenario :
    ckv1_decode cfg0 (strBytes "key=value\nnum=42") =
      .ok (.table [(.str (strBytes "key"), .str (strBytes "value")),
                   (.str (strBytes "num"), .num (.finite 42))]) ∧
    ckv1_encode cfg0 (.table [(.str (strBytes "key"), .str (strBytes "value")),
                              (.str (strBytes "num"), .num (.finite 42))]) =
      .ok (strBytes "key=\"value\"\nnum=42") :=
  ⟨c1_kv1_dec, c1_kv1_enc⟩

/-- Claim C7, counterexample.  Encoding the tree decoded from
`key=value` LF `num=42` yields `key="value"` LF `num=42`, which is not
the claimed byte string `key=value` LF `num=42`. -/
theorem C7_counterexample :
    ckv1_encode cfg0 (.table [(.str (strBytes "key"), .str (strBytes "value")),
                              (.str (strBytes "num"), .num (.finite 42))]) =
      .ok (strBytes "key=\"value\"\nnum=42") ∧
    strBytes "key=\"value\"\nnum=42" ≠ strBytes "key=value\nnum=42" :=
  ⟨c1_kv1_enc, by decide⟩

/-- Claim C8 (confirmed).  Any input of length at least 2 whose first
or second byte is NUL is rejected by every dialect's decode with the
UTF-16/UTF-32 error, before any parsing. -/
theorem C8_utf16_rejection (cfg : Cfg) (data : ByteStr) (hlen : 2 ≤ data.length)
    (hz : byteAt data 0 = 0 ∨ byteAt data 1 = 0) :
    ckv_decode cfg data = .error "ckv parser does not support UTF-16 or UTF-32" ∧
    ckv_decode2 cfg data = .error "ckv parser does not support UTF-16 or UTF-32" ∧
    ckv1_decode cfg data = .error "KV parser does not support UTF-16 or UTF-32" ∧
    ckv1_decode_array cfg data = .error "KV parser does not support UTF-16 or UTF-32" ∧
    ckv3_decode cfg data = .error "KV parser does not support UTF-16 or UTF-32" := by
  refine ⟨?_, ?_, ?_, ?_, ?_⟩ <;>
    simp [ckv_decode, ckv_decode2, ckv1_decode, ckv1_decode_array, ckv3_decode,
      ckv_decode_core, ckv_decode2_core, ckv1_decode_core, ckv1_decode_array_core,
      ckv3_decode_core, runCore, hlen, hz]

/-- Witness for C8 at the concrete input `00 41`. -/
theorem C8_utf16_rejection_witness :
    2 ≤ ([0, 65] : ByteStr).length ∧ (byteAt [0, 65] 0 = 0 ∨ byteAt [0, 65] 1 = 0) ∧
    ckv_decode cfg0 [0, 65] = .error "ckv parser does not support UTF-16 or UTF-32" ∧
    ckv3_decode cfg0 [0, 65] = .error "KV parser does not support UTF-16 or UTF-32" :=
  ⟨by decide, by decide,
   (C8_utf16_rejection cfg0 [0, 65] (by decide) (by decide)).1,
   (C8_utf16_rejection cfg0 [0, 65] (by decide) (by decide)).2.2.2.2⟩

/-- Claim C9 (corrected).  Every exported operation takes exactly one
argument and returns exactly one result, but a wrong argument count is
rejected with `luaL_argcheck`'s message "expected 1 argument" - the
message "found too many arguments" belongs to `ckv_arg_init`, used by
the configuration helpers only.  `ckv.decode_file_array` checks arity
before its file-loading body runs, whatever that body does. -/
theorem C9_arity_check (cfg : Cfg) (args : List LuaValue) (h : args.length ≠ 1) :
    ckv_encode_entry cfg args = .error "expected 1 argument" ∧
    ckv_encode2_entry cfg args = .error "expected 1 argument" ∧
    ckv_decode_entry cfg args = .error "expected 1 argument" ∧
    ckv_decode2_entry cfg args = .error "expected 1 argument" ∧
    (∀ body, ckv_decode_file_array_entry body args = .error "expected 1 argument") ∧
    ckv1_encode_entry cfg args = .error "expected 1 argument" ∧
    ckv1_encode_array_entry cfg args = .error "expected 1 argument" ∧
    ckv1_decode_entry cfg args = .error "expected 1 argument" ∧
    ckv1_decode_array_entry cfg args = .error "expected 1 argument" ∧
    ckv3_encode_entry cfg args = .error "expected 1 argument" ∧
    ckv3_decode_entry cfg args = .error "expected 1 argument" := by
  match args with
  | [] => exact ⟨rfl, rfl, rfl, rfl, fun _ => rfl, rfl, rfl, rfl, rfl, rfl, rfl⟩
  | [_] => simp at h
  | _ :: _ :: _ => exact ⟨rfl, rfl, rfl, rfl, fun _ => rfl, rfl, rfl, rfl, rfl, rfl, rfl⟩

/-- Witness for C9: two arguments to `ckv.decode`. -/
theorem C9_arity_check_witness :
    ([LuaValue.null, LuaValue.null] : List LuaValue).length ≠ 1 ∧
    ckv_decode_entry cfg0 [.null, .null] = .error "expected 1 argument" :=
  ⟨by decide, (C9_arity_check cfg0 [.null, .null] (by decide)).2.2.1⟩

/-- Claim C9, counterexample.  Calling `ckv.decode` with two arguments
raises "expected 1 argument", not the claimed
"found too many arguments". -/
theorem C9_counterexample :
    ckv_decode_entry cfg0 [.null, .null] = .error "expected 1 argument" ∧
    "expected 1 argument" ≠ "found too many arguments" :=
  ⟨rfl, by decide⟩

/-- Reads at or past the end of the byte string yield the NUL. -/
theorem byteAt_ge_len (data : ByteStr) (i : Nat) (h : data.length ≤ i) :
    byteAt data i = 0 := by
  simp [byteAt, List.getD_eq_getElem?_getD, List.getElem?_eq_none h]

/-- If no CR or LF ever follows, the KV0 line-comment skip never
stops, whatever the fuel. -/
theorem ckv_comment_skip_none (data : ByteStr) :
    ∀ fuel pos, (∀ i, pos < i → byteAt data i ≠ 13 ∧ byteAt data i ≠ 10) →
      ckv_comment_skip data pos fuel = none := by
  intro fuel
  induction fuel with
  | zero => intro pos _; rfl
  | succ f ih =>
    intro pos h
    have h1 := h (pos + 1) (by omega)
    simp only [ckv_comment_skip, h1.1, h1.2, or_self, if_false]
    exact ih (pos + 1) (fun i hi => h i (by omega))

/-- If no '-' or '>' byte ever follows, the KV1/KV3 block-comment
terminator search never stops, whatever the fuel. -/
theorem markSkip_none (data : ByteStr) :
    ∀ fuel pos off, (∀ i, pos ≤ i → byteAt data i ≠ 45 ∧ byteAt data i ≠ 62) →
      markSkip data pos off fuel = none := by
  intro fuel
  induction fuel with
  | zero => intro pos off _; rfl
  | succ f ih =>
    intro pos off h
    have h0 := h pos le_rfl
    have hne : ¬(byteAt data pos = markEndByte off) := by
      unfold markEndByte
      split
      · exact h0.1
      · exact h0.2
    simp only [markSkip, hne, if_false]
    exact ih (pos + 1) 0 (fun i hi => h i (by omega))

/-- On `"a" TAB //x` the KV0 tokenizer never returns from the comment
at offset 4: the skip loop passes the terminating NUL. -/
theorem c10_kv0_tok : ∀ fuel,
    ckv_next_token fpconv_strtod cfg0 [34, 97, 34, 9, 47, 47, 120] 4 fuel = none := by
  intro fuel
  cases fuel with
  | zero => rfl
  | succ f =>
    have hc : ckv_comment_skip [34, 97, 34, 9, 47, 47, 120] 4 f = none := by
      refine ckv_comment_skip_none _ f 4 (fun i hi => ?_)
      by_cases h7 : i < 7
      · interval_cases i <;> simp [byteAt]
      · rw [byteAt_ge_len _ i (by simp; omega)]
        exact ⟨by omega, by omega⟩
    simp [ckv_next_token, byteAt, ckv_ch2token, hc]

/-- On `k=v LF <!--x` the KV1 tokenizer never returns from the block
comment at offset 4. -/
theorem c10_kv1_tok : ∀ (isKey : Bool) fuel,
    ckv1_next_token fpconv_strtod cfg0 [107, 61, 118, 10, 60, 33, 45, 45, 120]
      isKey 4 fuel = none := by
  intro isKey fuel
  cases fuel with
  | zero => rfl
  | succ f =>
    have hm : markSkip [107, 61, 118, 10, 60, 33, 45, 45, 120] 8 0 f = none := by
      refine markSkip_none _ f 8 0 (fun i hi => ?_)
      by_cases h9 : i < 9
      · interval_cases i <;> simp [byteAt]
      · rw [byteAt_ge_len _ i (by simp; omega)]
        exact ⟨by omega, by omega⟩
    simp [ckv1_next_token, byteAt, ckv1_ch2token, hm]

/-- On `"k" "t" "v" <!--x` the KV3 tokenizer never returns from the
block comment at offset 12. -/
theorem c10_kv3_tok : ∀ fuel,
    ckv3_next_token [34, 107, 34, 32, 34, 116, 34, 32, 34, 118, 34, 32, 60, 33, 45, 45, 120]
      12 fuel = none := by
  intro fuel
  cases fuel with
  | zero => rfl
  | succ f =>
    have hm : markSkip [34, 107, 34, 32, 34, 116, 34, 32, 34, 118, 34, 32, 60, 33, 45, 45, 120]
        16 0 f = none := by
      refine markSkip_none _ f 16 0 (fun i hi => ?_)
      by_cases h17 : i < 17
      · interval_cases i <;> simp [byteAt]
      · rw [byteAt_ge_len _ i (by simp; omega)]
        exact ⟨by omega, by omega⟩
    simp [ckv3_next_token, byteAt, ckv3_ch2token, ckv1_ch2token, hm]

set_option maxRecDepth 10000 in
/-- The decode-level consequences of the unterminated comments, and
the contrast case: a terminated `//` comment tokenizes normally. -/
theorem c10_ends :
    ckv_decode cfg0 (strBytes "\"a\"\t//x") = .error fuelMsg ∧
    ckv1_decode cfg0 (strBytes "k=v\n<!--x") = .error fuelMsg ∧
    ckv3_decode cfg0 (strBytes "\"k\" \"t\" \"v\" <!--x") = .error fuelMsg ∧
    ckv_next_token fpconv_strtod cfg0 (strBytes "//x\n5") 0 64 =
      some ⟨.num (.finite 5), 4, 5⟩ := by
  refine ⟨?_, ?_, ?_, ?_⟩
  · rw [show strBytes "\"a\"\t//x" = [34, 97, 34, 9, 47, 47, 120] from by decide]; exact rfl
  · rw [show strBytes "k=v\n<!--x" = [107, 61, 118, 10, 60, 33, 45, 45, 120] from by decide]
    exact rfl
  · rw [show strBytes "\"k\" \"t\" \"v\" <!--x" =
      [34, 107, 34, 32, 34, 116, 34, 32, 34, 118, 34, 32, 60, 33, 45, 45, 120] from by decide]
    exact rfl
  · rw [show strBytes "//x\n5" = [47, 47, 120, 10, 53] from by decide]; exact rfl

/-- Claim C10 (confirmed).  The comment-skipping loops are bounded
only by the comment terminator, not by the end of the input: on a KV0
input whose final bytes are `//x` with no CR/LF, `ckv_next_token` at
the comment position returns for no amount of fuel (the skip loop
walks past the terminating NUL; in the model every past-the-end read
is NUL, and none of them stops the loop), and likewise for KV1 and
KV3 inputs ending in `<!--x` with no closing `-->`; decode of those
inputs therefore never terminates within the buffer (the model's
fuel-exhaustion error).  With the terminating CR/LF present, the same
comment tokenizes normally. -/
theorem C10_comment_overrun :
    (∀ fuel, ckv_next_token fpconv_strtod cfg0 [34, 97, 34, 9, 47, 47, 120] 4 fuel = none) ∧
    (∀ (isKey : Bool) fuel,
      ckv1_next_token fpconv_strtod cfg0 [107, 61, 118, 10, 60, 33, 45, 45, 120]
        isKey 4 fuel = none) ∧
    (∀ fuel, ckv3_next_token
        [34, 107, 34, 32, 34, 116, 34, 32, 34, 118, 34, 32, 60, 33, 45, 45, 120]
        12 fuel = none) ∧
    ckv_decode cfg0 (strBytes "\"a\"\t//x") = .error fuelMsg ∧
    ckv1_decode cfg0 (strBytes "k=v\n<!--x") = .error fuelMsg ∧
    ckv3_decode cfg0 (strBytes "\"k\" \"t\" \"v\" <!--x") = .error fuelMsg ∧
    ckv_next_token fpconv_strtod cfg0 (strBytes "//x\n5") 0 64 =
      some ⟨.num (.finite 5), 4, 5⟩ :=
  ⟨c10_kv0_tok, c10_kv1_tok, c10_kv3_tok,
   c10_ends.1, c10_ends.2.1, c10_ends.2.2.1, c10_ends.2.2.2⟩

/-- A backslash run is no longer than the remaining input. -/
theorem slashRun_le_length (l : List Nat) : slashRun l ≤ l.length := by
  induction l with
  | nil => simp [slashRun]
  | cons c t ih =>
    by_cases hc : c = 92
    · subst hc; simpa [slashRun] using ih
    · rw [show slashRun (c :: t) = 0 from by
        rw [slashRun.eq_def]; split <;> simp_all]
      simp

/-- An in-bounds read is the head of the dropped suffix. -/
theorem byteAt_lt_len (data : ByteStr) (pos : Nat) (h : pos < data.length) :
    data.drop pos = byteAt data pos :: data.drop (pos + 1) := by
  rw [List.drop_eq_getElem_cons h]
  simp [byteAt, List.getD_eq_getElem?_getD, List.getElem?_eq_getElem h]

/-- A backslash extends the run by one. -/
theorem slashRun_drop (data : ByteStr) (pos : Nat) (h : byteAt data pos = 92) :
    slashRun (data.drop pos) = slashRun (data.drop (pos + 1)) + 1 := by
  have hlt : pos < data.length := by
    by_contra hge
    rw [byteAt_ge_len data pos (by omega)] at h
    omega
  rw [byteAt_lt_len data pos hlt, h]
  rfl

/-- A non-backslash means an empty run. -/
theorem slashRun_drop_zero (data : ByteStr) (pos : Nat) (h : byteAt data pos ≠ 92) :
    slashRun (data.drop pos) = 0 := by
  by_cases hlt : pos < data.length
  · rw [byteAt_lt_len data pos hlt]
    rw [slashRun.eq_def]; split <;> simp_all
  · rw [List.drop_eq_nil_of_le (by omega)]
    rfl

/-- With enough fuel, the source's inner backslash loop lands exactly
at the end of the maximal run. -/
theorem ckv1_slash_loop_eq (data : ByteStr) :
    ∀ fuel pos, slashRun (data.drop pos) + 1 ≤ fuel →
      ckv1_slash_loop data pos fuel = some (pos + slashRun (data.drop pos)) := by
  intro fuel
  induction fuel with
  | zero => intro pos h; omega
  | succ f ih =>
    intro pos h
    by_cases hb : byteAt data pos = 92
    · have heq := slashRun_drop data pos hb
      rw [heq] at h ⊢
      simp only [ckv1_slash_loop, hb, if_true]
      rw [ih (pos + 1) (by omega)]
      congr 1
      omega
    · rw [slashRun_drop_zero data pos hb]
      simp [ckv1_slash_loop, hb]

/-- The source scanner and the spec-level run-collapsing scanner agree
whenever the fuel covers the remaining input. -/
theorem ckv1_scan_eq_spec_aux (data : ByteStr) :
    ∀ fuel pos, 2 * data.length + 4 ≤ fuel + 2 * pos →
      ckv1_next_string_token data pos fuel = kv1_collapse_scan_spec data pos fuel := by
  intro fuel
  induction fuel with
  | zero => intro pos _; rfl
  | succ f ih =>
    intro pos h
    simp only [ckv1_next_string_token, kv1_collapse_scan_spec]
    by_cases h34 : byteAt data pos = 34
    · simp [h34]
    · by_cases h0 : byteAt data pos = 0
      · simp [h34, h0]
      · by_cases h92 : byteAt data pos = 92
        · have hlt : pos < data.length := by
            by_contra hge
            rw [byteAt_ge_len data pos (by omega)] at h92
            omega
          have hrun : slashRun (data.drop pos) ≤ data.length - pos := by
            have := slashRun_le_length (data.drop pos)
            simpa using this
          rw [ckv1_slash_loop_eq data f pos (by omega)]
          simp only [h34, h0, h92, if_false, if_true]
          rw [ih (pos + slashRun (List.drop pos data) + 1) (by omega)]
        · simp only [h34, h0, h92, if_false]
          rw [ih (pos + 1) (by omega)]

/-- Claim C4 (confirmed).  The KV1 quoted-string scanner (and the KV3
one, which is the same function) refines the spec's description: `\u`
escapes are not decoded, and each maximal run of consecutive
backslashes is collapsed into a single '/' emitted immediately before
the byte that follows the run (`kv1_collapse_scan_spec`, written from
the spec's words).  The fuel `2 * data.length + 4` covers every
possible scan of the input.  The final conjunct shows `A` coming
out as the literal bytes `/u0041`. -/
theorem C4_backslash_collapse :
    (∀ (data : ByteStr) (pos : Nat),
      ckv1_next_string_token data pos (2 * data.length + 4) =
        kv1_collapse_scan_spec data pos (2 * data.length + 4)) ∧
    ckv3_next_string_token = ckv1_next_string_token ∧
    ckv1_next_string_token [92, 117, 48, 48, 52, 49, 34] 0 16 =
      some (.ok ([47, 117, 48, 48, 52, 49], 7)) :=
  ⟨fun data pos => ckv1_scan_eq_spec_aux data (2 * data.length + 4) pos (by omega),
   rfl, rfl⟩

theorem lowerB_lt_64 (b : Nat) (h : b ≤ 57) : lowerB b < 64 := by
  have h1 : b < 2 ^ 6 := by omega
  have h2 : 32 < 2 ^ 6 := by omega
  simpa [lowerB] using Nat.or_lt_two_pow h1 h2

theorem ckv_inv_num_iff (data : ByteStr) (pos : Nat) :
    ckv_is_invalid_number data pos = true ↔ invalidNumberShape data pos := by
  unfold ckv_is_invalid_number invalidNumberShape
  by_cases h43 : byteAt data pos = 43
  · simp [h43]
  · simp only [h43, if_false, false_or]
    set p := if byteAt data pos = 45 then pos + 1 else pos with hp
    by_cases h48 : byteAt data p = 48
    · have hB : ¬(lowerB (byteAt data p) = 105 ∧ lowerB (byteAt data (p + 1)) = 110 ∧
          lowerB (byteAt data (p + 2)) = 102) := by
        rw [h48]; intro hc; exact absurd hc.1 (by decide)
      have hC : ¬(lowerB (byteAt data p) = 110 ∧ lowerB (byteAt data (p + 1)) = 97 ∧
          lowerB (byteAt data (p + 2)) = 110) := by
        rw [h48]; intro hc; exact absurd hc.1 (by decide)
      simp [h48, hB, hC, show lowerB 48 = 48 from by decide]
    · simp only [h48, if_false, false_and, false_or]
      by_cases h57 : byteAt data p ≤ 57
      · have hlow := lowerB_lt_64 (byteAt data p) h57
        constructor
        · intro h
          simp [h57] at h
        · intro h
          rcases h with ⟨hi, _⟩ | ⟨hn, _⟩ <;> omega
      · simp only [h57, if_false]
        by_cases hB : lowerB (byteAt data p) = 105 ∧ lowerB (byteAt data (p + 1)) = 110 ∧
            lowerB (byteAt data (p + 2)) = 102
        · simp [hB.1, hB.2.1, hB.2.2]
        · rw [if_neg hB]
          by_cases hC : lowerB (byteAt data p) = 110 ∧ lowerB (byteAt data (p + 1)) = 97 ∧
              lowerB (byteAt data (p + 2)) = 110
          · simp [hC.1, hC.2.1, hC.2.2]
          · rw [if_neg hC]
            simp [hB, hC]

theorem ckv_ch2token_numstart (c : Nat)
    (h : c = 45 ∨ (48 ≤ c ∧ c ≤ 57)) : ckv_ch2token c = .unknown := by
  rcases h with h | h
  · rw [h]; decide
  · obtain ⟨h1, h2⟩ := h
    interval_cases c <;> decide

theorem ckv1_ch2token_numstart (c : Nat)
    (h : c = 45 ∨ (48 ≤ c ∧ c ≤ 57)) : ckv1_ch2token c = .unknown := by
  rcases h with h | h
  · rw [h]; decide
  · obtain ⟨h1, h2⟩ := h
    interval_cases c <;> decide

theorem c6_kv0_off (std : StrtodFn) (cfg : Cfg) (data : ByteStr) (pos fuel : Nat)
    (hoff : cfg.decode_invalid_numbers = false)
    (hch : byteAt data pos = 45 ∨ (48 ≤ byteAt data pos ∧ byteAt data pos ≤ 57))
    (hinv : ckv_is_invalid_number data pos = true) :
    ckv_next_token std cfg data pos (fuel + 1) =
      some ⟨.err "invalid number", pos, pos⟩ := by
  have h1 := ckv_ch2token_numstart _ hch
  have h34 : ¬(byteAt data pos = 34) := by rcases hch with h | h <;> omega
  simp only [ckv_next_token, h1, h34, hch, hoff, hinv]
  simp

theorem c6_kv0_on (std : StrtodFn) (cfg : Cfg) (data : ByteStr) (pos fuel : Nat)
    (hon : cfg.decode_invalid_numbers = true)
    (hch : byteAt data pos = 45 ∨ (48 ≤ byteAt data pos ∧ byteAt data pos ≤ 57)) :
    ckv_next_token std cfg data pos (fuel + 1) =
      some (ckv_next_number_token std data pos) := by
  have h1 := ckv_ch2token_numstart _ hch
  have h34 : ¬(byteAt data pos = 34) := by rcases hch with h | h <;> omega
  simp only [ckv_next_token, h1, h34, hch, hon]
  simp

theorem c6_kv0_plus_on (std : StrtodFn) (cfg : Cfg) (data : ByteStr) (pos fuel : Nat)
    (hon : cfg.decode_invalid_numbers = true)
    (hch : byteAt data pos = 43) :
    ckv_next_token std cfg data pos (fuel + 1) =
      some (ckv_next_number_token std data pos) := by
  have hinv : ckv_is_invalid_number data pos = true := by
    unfold ckv_is_invalid_number; rw [hch]; simp
  simp only [ckv_next_token, hch, hon, hinv]
  simp [show ckv_ch2token 43 = TokClass.unknown from by decide]

theorem c6_kv1_off (std : StrtodFn) (cfg : Cfg) (data : ByteStr) (pos fuel : Nat)
    (hoff : cfg.decode_invalid_numbers = false)
    (hch : byteAt data pos = 45 ∨ (48 ≤ byteAt data pos ∧ byteAt data pos ≤ 57))
    (hinv : ckv1_is_invalid_number data pos = true) :
    ckv1_next_token std cfg data false pos (fuel + 1) =
      some ⟨.err "invalid number", pos, pos⟩ := by
  have h1 := ckv1_ch2token_numstart _ hch
  have h34 : ¬(byteAt data pos = 34) := by rcases hch with h | h <;> omega
  have h60 : ¬(byteAt data pos = 60) := by rcases hch with h | h <;> omega
  have halpha : ¬((97 ≤ byteAt data pos ∧ byteAt data pos ≤ 122) ∨
      (65 ≤ byteAt data pos ∧ byteAt data pos ≤ 90)) := by
    rcases hch with h | h <;> omega
  simp only [ckv1_next_token, ckv1_dispatch, h1, h34, h60, halpha, hch, hoff, hinv]
  simp

theorem c6_kv1_on (std : StrtodFn) (cfg : Cfg) (data : ByteStr) (pos fuel : Nat)
    (hon : cfg.decode_invalid_numbers = true)
    (hch : byteAt data pos = 45 ∨ (48 ≤ byteAt data pos ∧ byteAt data pos ≤ 57)) :
    ckv1_next_token std cfg data false pos (fuel + 1) =
      some (ckv_next_number_token std data pos) := by
  have h1 := ckv1_ch2token_numstart _ hch
  have h34 : ¬(byteAt data pos = 34) := by rcases hch with h | h <;> omega
  have h60 : ¬(byteAt data pos = 60) := by rcases hch with h | h <;> omega
  have halpha : ¬((97 ≤ byteAt data pos ∧ byteAt data pos ≤ 122) ∨
      (65 ≤ byteAt data pos ∧ byteAt data pos ≤ 90)) := by
    rcases hch with h | h <;> omega
  simp only [ckv1_next_token, ckv1_dispatch, h1, h34, h60, halpha, hch, hon]
  simp

theorem c6_kv1_plus_on (std : StrtodFn) (cfg : Cfg) (data : ByteStr) (pos fuel : Nat)
    (hon : cfg.decode_invalid_numbers = true)
    (hch : byteAt data pos = 43) :
    ckv1_next_token std cfg data false pos (fuel + 1) =
      some (ckv_next_number_token std data pos) := by
  have hinv : ckv1_is_invalid_number data pos = true := by
    unfold ckv1_is_invalid_number ckv_is_invalid_number; rw [hch]; simp
  simp only [ckv1_next_token, ckv1_dispatch, hch, hon, hinv]
  simp [show ckv1_ch2token 43 = TokClass.unknown from by decide]

/-- C6: the invalid-number prefilter of KV0 and KV1.  Conjuncts: the
prefilter predicate (textually shared by the two dialects) accepts
exactly the syntactic shapes the claim lists; with
`decode_invalid_numbers` off, a number-position token (leading '-' or
digit) matching a shape yields the "invalid number" error token for
every choice of double-parsing primitive, so the primitive is never
invoked; with the flag on, every number-position token, and also a
leading-'+' token, is handed to the primitive
(`ckv_next_number_token`).  The claim's leading-'+' and bare inf/nan
shapes are not number-position tokens when the flag is off - see the
counterexample. -/
theorem C6_invalid_number_gating :
    (∀ data pos, ckv_is_invalid_number data pos = true ↔ invalidNumberShape data pos) ∧
    ckv1_is_invalid_number = ckv_is_invalid_number ∧
    (∀ (std : StrtodFn) (cfg : Cfg) (data : ByteStr) (pos fuel : Nat),
      cfg.decode_invalid_numbers = false →
      byteAt data pos = 45 ∨ (48 ≤ byteAt data pos ∧ byteAt data pos ≤ 57) →
      ckv_is_invalid_number data pos = true →
      ckv_next_token std cfg data pos (fuel + 1) =
        some ⟨.err "invalid number", pos, pos⟩) ∧
    (∀ (std : StrtodFn) (cfg : Cfg) (data : ByteStr) (pos fuel : Nat),
      cfg.decode_invalid_numbers = false →
      byteAt data pos = 45 ∨ (48 ≤ byteAt data pos ∧ byteAt data pos ≤ 57) →
      ckv1_is_invalid_number data pos = true →
      ckv1_next_token std cfg data false pos (fuel + 1) =
        some ⟨.err "invalid number", pos, pos⟩) ∧
    (∀ (std : StrtodFn) (cfg : Cfg) (data : ByteStr) (pos fuel : Nat),
      cfg.decode_invalid_numbers = true →
      byteAt data pos = 45 ∨ (48 ≤ byteAt data pos ∧ byteAt data pos ≤ 57) →
      ckv_next_token std cfg data pos (fuel + 1) =
        some (ckv_next_number_token std data pos)) ∧
    (∀ (std : StrtodFn) (cfg : Cfg) (data : ByteStr) (pos fuel : Nat),
      cfg.decode_invalid_numbers = true →
      byteAt data pos = 45 ∨ (48 ≤ byteAt data pos ∧ byteAt data pos ≤ 57) →
      ckv1_next_token std cfg data false pos (fuel + 1) =
        some (ckv_next_number_token std data pos)) ∧
    (∀ (std : StrtodFn) (cfg : Cfg) (data : ByteStr) (pos fuel : Nat),
      cfg.decode_invalid_numbers = true → byteAt data pos = 43 →
      ckv_next_token std cfg data pos (fuel + 1) =
        some (ckv_next_number_token std data pos)) ∧
    (∀ (std : StrtodFn) (cfg : Cfg) (data : ByteStr) (pos fuel : Nat),
      cfg.decode_invalid_numbers = true → byteAt data pos = 43 →
      ckv1_next_token std cfg data false pos (fuel + 1) =
        some (ckv_next_number_token std data pos)) :=
  ⟨ckv_inv_num_iff, rfl, c6_kv0_off, c6_kv1_off, c6_kv0_on, c6_kv1_on,
   c6_kv0_plus_on, c6_kv1_plus_on⟩

/-- C6 counterexample: with `decode_invalid_numbers` off, the input
"+1" matches the claim's leading-'+' shape, yet KV0 tokenizes it to
"invalid token 1" and KV1 to "invalid token" - not to the claimed
"invalid number" error - because '+' is not a number-position start
byte, so the prefilter branch guarding it is only consulted when the
flag is on. -/
theorem C6_counterexample :
    cfg0.decode_invalid_numbers = false ∧
    invalidNumberShape (strBytes "+1") 0 ∧
    ckv_next_token fpconv_strtod cfg0 (strBytes "+1") 0 1 =
      some ⟨.err "invalid token 1", 0, 0⟩ ∧
    ckv1_next_token fpconv_strtod cfg0 (strBytes "+1") false 0 1 =
      some ⟨.err "invalid token", 0, 0⟩ := by
  refine ⟨rfl, Or.inl (by decide), ?_, ?_⟩ <;> rfl

theorem C6_invalid_number_gating_witness :
    ckv_next_token fpconv_strtod cfg0 (strBytes "0x1") 0 1 =
        some ⟨.err "invalid number", 0, 0⟩ ∧
    ckv1_next_token fpconv_strtod cfg0 (strBytes "0x1") false 0 1 =
        some ⟨.err "invalid number", 0, 0⟩ :=
  ⟨C6_invalid_number_gating.2.2.1 fpconv_strtod cfg0 (strBytes "0x1") 0 0 rfl
      (Or.inr (by decide)) (by decide),
   C6_invalid_number_gating.2.2.2.1 fpconv_strtod cfg0 (strBytes "0x1") 0 0 rfl
      (Or.inr (by decide)) (by decide)⟩

theorem hexdigit2int_le (c d : Nat) (h : hexdigit2int c = some d) : d ≤ 15 := by
  unfold hexdigit2int at h
  split at h
  · simp at h; omega
  · split at h
    · simp at h; omega
    · simp at h

theorem decode_hex4_lt (data : ByteStr) (pos cp : Nat)
    (h : decode_hex4 data pos = some cp) : cp < 0x10000 := by
  unfold decode_hex4 at h
  have b0 := hexdigit2int_le (byteAt data pos)
  have b1 := hexdigit2int_le (byteAt data (pos + 1))
  have b2 := hexdigit2int_le (byteAt data (pos + 2))
  have b3 := hexdigit2int_le (byteAt data (pos + 3))
  split at h
  · next d0 d1 d2 d3 h0 h1 h2 h3 =>
    have e0 := b0 d0 h0
    have e1 := b1 d1 h1
    have e2 := b2 d2 h2
    have e3 := b3 d3 h3
    simp only [Option.some_inj] at h
    subst h
    simp only [Nat.shiftLeft_eq]
    omega
  · simp at h

theorem codepoint_to_utf8_len (cp : Nat) (h : cp ≤ 0x1FFFFF) :
    1 ≤ (codepoint_to_utf8 cp).length ∧ (codepoint_to_utf8 cp).length ≤ 4 := by
  unfold codepoint_to_utf8
  split
  · simp
  · split
    · simp
    · split
      · simp
      · simp

theorem codepoint_to_utf8_ne (cp : Nat) (h : cp ≤ 0x1FFFFF) :
    codepoint_to_utf8 cp ≠ [] := by
  have := codepoint_to_utf8_len cp h
  intro he
  rw [he] at this
  simp at this

theorem append_unicode_plain (data : ByteStr) (pos cp : Nat)
    (hhex : decode_hex4 data (pos + 2) = some cp)
    (hns : cp &&& 0xF800 ≠ 0xD800) :
    ckv_append_unicode_escape data pos = some (codepoint_to_utf8 cp, pos + 6) := by
  have hlt := decode_hex4_lt data (pos + 2) cp hhex
  have hne := codepoint_to_utf8_ne cp (by omega)
  unfold ckv_append_unicode_escape
  rw [hhex]
  simp [hns, hne]

theorem append_unicode_pair (data : ByteStr) (pos cp lo : Nat)
    (hhex : decode_hex4 data (pos + 2) = some cp)
    (hhi : cp &&& 0xF800 = 0xD800) (hhi2 : cp &&& 0x400 = 0)
    (hb1 : byteAt data (pos + 6) = 92) (hb2 : byteAt data (pos + 7) = 117)
    (hlo : decode_hex4 data (pos + 8) = some lo)
    (hlo2 : lo &&& 0xFC00 = 0xDC00) :
    ckv_append_unicode_escape data pos =
      some (codepoint_to_utf8 ((((cp &&& 0x3FF) <<< 10) ||| (lo &&& 0x3FF)) + 0x10000),
            pos + 12) := by
  have hcb : (cp &&& 0x3FF) <<< 10 < 2 ^ 20 := by
    have : cp &&& 0x3FF ≤ 0x3FF := Nat.and_le_right
    calc (cp &&& 0x3FF) <<< 10 = (cp &&& 0x3FF) * 1024 := by rw [Nat.shiftLeft_eq]
    _ < 2 ^ 20 := by omega
  have hlb : lo &&& 0x3FF < 2 ^ 20 := by
    have : lo &&& 0x3FF ≤ 0x3FF := Nat.and_le_right
    omega
  have hor := Nat.or_lt_two_pow hcb hlb
  have hne := codepoint_to_utf8_ne ((((cp &&& 0x3FF) <<< 10) ||| (lo &&& 0x3FF)) + 0x10000)
    (by omega)
  unfold ckv_append_unicode_escape
  rw [hhex]
  simp [hhi, hhi2, hb1, hb2, hlo, hlo2, hne]

theorem append_unicode_badhex (data : ByteStr) (pos : Nat)
    (hhex : decode_hex4 data (pos + 2) = none) :
    ckv_append_unicode_escape data pos = none := by
  unfold ckv_append_unicode_escape
  rw [hhex]

theorem and_mask_trans (cp m1 m2 : Nat) (h : m1 &&& m2 = m2) :
    cp &&& m2 = (cp &&& m1) &&& m2 := by
  rw [Nat.and_assoc, h]

theorem append_unicode_low_first (data : ByteStr) (pos cp : Nat)
    (hhex : decode_hex4 data (pos + 2) = some cp)
    (hlo : cp &&& 0xFC00 = 0xDC00) :
    ckv_append_unicode_escape data pos = none := by
  have h1 : cp &&& 0xF800 = 0xD800 := by
    rw [and_mask_trans cp 0xFC00 0xF800 (by decide), hlo]
    decide
  have h2 : cp &&& 0x400 = 0x400 := by
    rw [and_mask_trans cp 0xFC00 0x400 (by decide), hlo]
    decide
  unfold ckv_append_unicode_escape
  rw [hhex]
  simp [h1, h2]

theorem append_unicode_no_low (data : ByteStr) (pos cp : Nat)
    (hhex : decode_hex4 data (pos + 2) = some cp)
    (hhi : cp &&& 0xF800 = 0xD800) (hhi2 : cp &&& 0x400 = 0)
    (hmiss : byteAt data (pos + 6) ≠ 92 ∨ byteAt data (pos + 7) ≠ 117) :
    ckv_append_unicode_escape data pos = none := by
  unfold ckv_append_unicode_escape
  rw [hhex]
  simp [hhi, hhi2, hmiss]

theorem append_unicode_bad_low (data : ByteStr) (pos cp lo : Nat)
    (hhex : decode_hex4 data (pos + 2) = some cp)
    (hhi : cp &&& 0xF800 = 0xD800) (hhi2 : cp &&& 0x400 = 0)
    (hb1 : byteAt data (pos + 6) = 92) (hb2 : byteAt data (pos + 7) = 117)
    (hlo : decode_hex4 data (pos + 8) = some lo)
    (hlo2 : lo &&& 0xFC00 ≠ 0xDC00) :
    ckv_append_unicode_escape data pos = none := by
  unfold ckv_append_unicode_escape
  rw [hhex]
  simp [hhi, hhi2, hb1, hb2, hlo, hlo2]

theorem append_unicode_lone_badhex (data : ByteStr) (pos cp : Nat)
    (hhex : decode_hex4 data (pos + 2) = some cp)
    (hhi : cp &&& 0xF800 = 0xD800) (hhi2 : cp &&& 0x400 = 0)
    (hb1 : byteAt data (pos + 6) = 92) (hb2 : byteAt data (pos + 7) = 117)
    (hlo : decode_hex4 data (pos + 8) = none) :
    ckv_append_unicode_escape data pos = none := by
  unfold ckv_append_unicode_escape
  rw [hhex]
  simp [hhi, hhi2, hb1, hb2, hlo]

theorem scan_close (data : ByteStr) (pos fuel : Nat) (h : byteAt data pos = 34) :
    ckv_string_scan data pos (fuel + 1) = some (.ok ([], pos + 1)) := by
  simp [ckv_string_scan, h]

theorem scan_nul (data : ByteStr) (pos fuel : Nat) (h : byteAt data pos = 0) :
    ckv_string_scan data pos (fuel + 1) =
      some (.error ("unexpected end of string", pos)) := by
  simp [ckv_string_scan, h]

theorem scan_bad_unicode (data : ByteStr) (pos fuel : Nat)
    (h : byteAt data pos = 92) (hu : byteAt data (pos + 1) = 117)
    (happ : ckv_append_unicode_escape data pos = none) :
    ckv_string_scan data pos (fuel + 1) =
      some (.error ("invalid unicode escape code", pos)) := by
  simp [ckv_string_scan, h, hu, happ, show ckv_escape2char 117 = 117 from rfl]

theorem scan_bad_escape (data : ByteStr) (pos fuel : Nat)
    (h : byteAt data pos = 92) (he : ckv_escape2char (byteAt data (pos + 1)) = 0) :
    ckv_string_scan data pos (fuel + 1) =
      some (.error ("invalid escape code", pos)) := by
  simp [ckv_string_scan, h, he]

theorem scan_good_unicode (data : ByteStr) (pos fuel : Nat) (u : ByteStr) (p' : Nat)
    (h : byteAt data pos = 92) (hu : byteAt data (pos + 1) = 117)
    (happ : ckv_append_unicode_escape data pos = some (u, p')) :
    ckv_string_scan data pos (fuel + 1) =
      scanMap (fun s => u ++ s) (ckv_string_scan data p' fuel) := by
  simp [ckv_string_scan, h, hu, happ, show ckv_escape2char 117 = 117 from rfl]

/-- C5: KV0 quoted-string scanning (`ckv_next_string_token`'s loop,
`ckv_append_unicode_escape`, `codepoint_to_utf8`).  Conjuncts: a '"'
at the cursor closes the literal, returning the cursor past it; a NUL
yields the "unexpected end of string" error; an escape byte with no
table entry yields "invalid escape code"; a `\u` escape on which
`ckv_append_unicode_escape` fails yields "invalid unicode escape
code", and it fails exactly on the claim's malformations: bad hex
digits, a mis-ordered (low-first) surrogate half, a high half not
followed by a `\u` escape, a second escape whose value is not a low
half or whose hex is bad; a well-formed escape succeeds - a
non-surrogate code point appends its UTF-8 bytes advancing by 6, a
surrogate pair decodes jointly to `0x10000 + ((hi &&& 0x3FF) <<< 10 |||
(lo &&& 0x3FF))` advancing by 12 - and the scan prepends those bytes to
the rest of the literal; every code point at most 0x1FFFFF (so every
successful escape) encodes to 1-4 UTF-8 bytes. -/
theorem C5_string_scanning :
    (∀ (data : ByteStr) (pos fuel : Nat), byteAt data pos = 34 →
      ckv_string_scan data pos (fuel + 1) = some (.ok ([], pos + 1))) ∧
    (∀ (data : ByteStr) (pos fuel : Nat), byteAt data pos = 0 →
      ckv_string_scan data pos (fuel + 1) =
        some (.error ("unexpected end of string", pos))) ∧
    (∀ (data : ByteStr) (pos fuel : Nat), byteAt data pos = 92 →
      ckv_escape2char (byteAt data (pos + 1)) = 0 →
      ckv_string_scan data pos (fuel + 1) =
        some (.error ("invalid escape code", pos))) ∧
    (∀ (data : ByteStr) (pos fuel : Nat), byteAt data pos = 92 →
      byteAt data (pos + 1) = 117 →
      ckv_append_unicode_escape data pos = none →
      ckv_string_scan data pos (fuel + 1) =
        some (.error ("invalid unicode escape code", pos))) ∧
    (∀ (data : ByteStr) (pos : Nat), decode_hex4 data (pos + 2) = none →
      ckv_append_unicode_escape data pos = none) ∧
    (∀ (data : ByteStr) (pos cp : Nat), decode_hex4 data (pos + 2) = some cp →
      cp &&& 0xFC00 = 0xDC00 → ckv_append_unicode_escape data pos = none) ∧
    (∀ (data : ByteStr) (pos cp : Nat), decode_hex4 data (pos + 2) = some cp →
      cp &&& 0xF800 = 0xD800 → cp &&& 0x400 = 0 →
      byteAt data (pos + 6) ≠ 92 ∨ byteAt data (pos + 7) ≠ 117 →
      ckv_append_unicode_escape data pos = none) ∧
    (∀ (data : ByteStr) (pos cp lo : Nat), decode_hex4 data (pos + 2) = some cp →
      cp &&& 0xF800 = 0xD800 → cp &&& 0x400 = 0 →
      byteAt data (pos + 6) = 92 → byteAt data (pos + 7) = 117 →
      decode_hex4 data (pos + 8) = some lo → lo &&& 0xFC00 ≠ 0xDC00 →
      ckv_append_unicode_escape data pos = none) ∧
    (∀ (data : ByteStr) (pos cp : Nat), decode_hex4 data (pos + 2) = some cp →
      cp &&& 0xF800 = 0xD800 → cp &&& 0x400 = 0 →
      byteAt data (pos + 6) = 92 → byteAt data (pos + 7) = 117 →
      decode_hex4 data (pos + 8) = none →
      ckv_append_unicode_escape data pos = none) ∧
    (∀ (data : ByteStr) (pos cp : Nat), decode_hex4 data (pos + 2) = some cp →
      cp &&& 0xF800 ≠ 0xD800 →
      ckv_append_unicode_escape data pos = some (codepoint_to_utf8 cp, pos + 6)) ∧
    (∀ (data : ByteStr) (pos cp lo : Nat), decode_hex4 data (pos + 2) = some cp →
      cp &&& 0xF800 = 0xD800 → cp &&& 0x400 = 0 →
      byteAt data (pos + 6) = 92 → byteAt data (pos + 7) = 117 →
      decode_hex4 data (pos + 8) = some lo → lo &&& 0xFC00 = 0xDC00 →
      ckv_append_unicode_escape data pos =
        some (codepoint_to_utf8 ((((cp &&& 0x3FF) <<< 10) ||| (lo &&& 0x3FF)) + 0x10000),
              pos + 12)) ∧
    (∀ (data : ByteStr) (pos fuel : Nat) (u : ByteStr) (p' : Nat),
      byteAt data pos = 92 → byteAt data (pos + 1) = 117 →
      ckv_append_unicode_escape data pos = some (u, p') →
      ckv_string_scan data pos (fuel + 1) =
        scanMap (fun s => u ++ s) (ckv_string_scan data p' fuel)) ∧
    (∀ cp : Nat, cp ≤ 0x1FFFFF →
      1 ≤ (codepoint_to_utf8 cp).length ∧ (codepoint_to_utf8 cp).length ≤ 4) :=
  ⟨scan_close, scan_nul, scan_bad_escape, scan_bad_unicode, append_unicode_badhex,
   append_unicode_low_first, append_unicode_no_low, append_unicode_bad_low,
   append_unicode_lone_badhex, append_unicode_plain, append_unicode_pair,
   scan_good_unicode, codepoint_to_utf8_len⟩

theorem C5_string_scanning_witness :
    ckv_string_scan [34] 0 1 = some (.ok ([], 1)) ∧
    ckv_append_unicode_escape [92, 117, 68, 56, 51, 68, 92, 117, 68, 69, 48, 48, 34] 0 =
      some ([240, 159, 152, 128], 12) ∧
    ckv_string_scan [92, 117, 68, 56, 51, 68, 92, 117, 68, 69, 48, 48, 34] 0 2 =
      some (.ok ([240, 159, 152, 128], 13)) := by
  obtain ⟨h1, h2, h3, h4, h5, h6, h7, h8, h9, h10, h11, h12, h13⟩ := C5_string_scanning
  refine ⟨h1 [34] 0 0 (by decide), ?_, ?_⟩
  · have := h11 [92, 117, 68, 56, 51, 68, 92, 117, 68, 69, 48, 48, 34] 0 0xD83D 0xDE00
      (by decide) (by decide) (by decide) (by decide) (by decide) (by decide) (by decide)
    simpa using this
  · rw [h12 [92, 117, 68, 56, 51, 68, 92, 117, 68, 69, 48, 48, 34] 0 1 [240, 159, 152, 128] 12
      (by decide) (by decide) (by decide)]
    rfl

theorem parseM_bind_def {α β : Type} (m : ParseM α) (k : α → ParseM β) (st : PSt) :
    (m >>= k) st =
      match m st with
      | none => none
      | some (.error e) => some (.error e)
      | some (.ok (a, st')) => k a st' := rfl

theorem presP_pure (D : Nat) {α : Type} (a : α) : PresP D (pure a) := by
  intro st b st' h hle
  simp only [show (pure a : ParseM α) st = some (.ok (a, st)) from rfl] at h
  cases h
  exact hle

theorem presP_bind {D : Nat} {α β : Type} {m : ParseM α} {k : α → ParseM β}
    (hm : PresP D m) (hk : ∀ a, PresP D (k a)) : PresP D (m >>= k) := by
  intro st b st' h hle
  rw [parseM_bind_def] at h
  match hm' : m st with
  | none => rw [hm'] at h; exact absurd h (by simp)
  | some (.error e) => rw [hm'] at h; simp at h
  | some (.ok (a, st1)) =>
    rw [hm'] at h
    exact hk a st1 b st' h (hm st a st1 hm' hle)

theorem presP_fail (D : Nat) (α : Type) (e : String) : PresP D (@pmFail α e) := by
  intro st a st' h hle
  simp [pmFail] at h

theorem presP_throw (D : Nat) (α : Type) (exp : String) (t : NTok) :
    PresP D (@pmThrowParse α exp t) :=
  presP_fail D α _

theorem presP_tok (D : Nat) (tokf : Nat → Option NTok) : PresP D (pmTok tokf) := by
  intro st a st' h hle
  unfold pmTok at h
  simp only [forceNTok_eq] at h
  match ht : tokf st.pos with
  | none => rw [ht] at h; exact absurd h (by simp)
  | some t =>
    rw [ht] at h
    cases h
    exact hle

theorem presP_descend (cfg : Cfg) : PresP cfg.decode_max_depth (ckv_decode_descend cfg) := by
  intro st a st' h hle
  unfold ckv_decode_descend at h
  by_cases hd : st.depth + 1 ≤ cfg.decode_max_depth
  · rw [if_pos hd, forceNat_eq, forceNat_eq] at h
    cases h
    simp only [max_le_iff]
    exact ⟨hle, hd⟩
  · rw [if_neg hd] at h
    simp at h

theorem presP_ascend (D : Nat) : PresP D ckv_decode_ascend := by
  intro st a st' h hle
  unfold ckv_decode_ascend at h
  rw [forceNat_eq] at h
  cases h
  exact hle

theorem presP_ite (D : Nat) {α : Type} (c : Prop) [Decidable c] {m1 m2 : ParseM α}
    (h1 : PresP D m1) (h2 : PresP D m2) : PresP D (if c then m1 else m2) := by
  by_cases hc : c
  · rwa [if_pos hc]
  · rwa [if_neg hc]

theorem presP_ckv_parse (std : StrtodFn) (cfg : Cfg) (data : ByteStr) :
    ∀ (fuel : Nat) (req : KV0Req),
      PresP cfg.decode_max_depth (ckv_parse std cfg data fuel req) := by
  intro fuel
  induction fuel with
  | zero =>
    intro req st a st' h hle
    exact absurd h (by simp [ckv_parse])
  | succ n ih =>
    intro req
    cases req with
    | val t =>
      rcases t with ⟨tok, ti, tp⟩
      cases tok <;> simp only [ckv_parse] <;>
        first
          | exact presP_pure _ _
          | exact ih _
          | exact presP_throw _ _ _ _
    | val2 t =>
      rcases t with ⟨tok, ti, tp⟩
      cases tok <;> simp only [ckv_parse] <;>
        first
          | exact presP_pure _ _
          | exact ih _
          | exact presP_throw _ _ _ _
    | objCtx =>
      simp only [ckv_parse]
      refine presP_bind (presP_descend cfg) fun _ => ?_
      refine presP_bind (presP_tok _ _) fun t => ?_
      exact presP_ite _ _ (presP_bind (presP_ascend _) fun _ => presP_pure _ _) (ih _)
    | objLoop t acc =>
      rcases t with ⟨tok, ti, tp⟩
      cases tok <;> simp only [ckv_parse]
      case str s =>
        refine presP_bind (presP_tok _ _) fun vt => ?_
        refine presP_bind (ih _) fun v => ?_
        refine presP_bind (presP_tok _ _) fun nt => ?_
        exact presP_ite _ _ (presP_bind (presP_ascend _) fun _ => presP_pure _ _) (ih _)
      all_goals exact presP_throw _ _ _ _
    | arrCtx =>
      simp only [ckv_parse]
      refine presP_bind (presP_descend cfg) fun _ => ?_
      refine presP_bind (presP_tok _ _) fun t => ?_
      exact presP_ite _ _ (presP_bind (presP_ascend _) fun _ => presP_pure _ _) (ih _)
    | arrLoop t i acc =>
      simp only [ckv_parse]
      refine presP_bind (ih _) fun v => ?_
      refine presP_bind (presP_tok _ _) fun nt => ?_
      exact presP_ite _ _ (presP_bind (presP_ascend _) fun _ => presP_pure _ _) (ih _)




theorem presP_descend1 (cfg : Cfg) :
    PresP cfg.decode_max_depth (ckv1_decode_descend cfg) := presP_descend cfg

theorem presP_ascend1 (D : Nat) : PresP D ckv1_decode_ascend := presP_ascend D

set_option maxHeartbeats 2000000 in
theorem presP_ckv1_parse (std : StrtodFn) (cfg : Cfg) (data : ByteStr) (lt : LoadType) :
    ∀ (fuel : Nat) (req : KV1Req),
      PresP cfg.decode_max_depth (ckv1_parse std cfg data lt fuel req) := by
  intro fuel
  induction fuel with
  | zero =>
    intro req st a st' h hle
    exact absurd h (by simp [ckv1_parse])
  | succ n ih =>
    have step : ∀ (m : ParseM LuaValue),
        (∃ req, m = ckv1_parse std cfg data lt n req) → PresP cfg.decode_max_depth m := by
      rintro m ⟨req, rfl⟩
      exact ih req
    intro req
    cases req with
    | val t =>
      rcases t with ⟨tok, ti, tp⟩
      cases tok <;> simp only [ckv1_parse] <;>
        first
          | exact presP_pure _ _
          | exact ih _
          | exact presP_throw _ _ _ _
          | exact presP_ite _ _ (ih _) (ih _)
    | objCtx =>
      simp only [ckv1_parse]
      refine presP_bind (presP_descend1 cfg) fun _ => ?_
      refine presP_bind (presP_tok _ _) fun t => ?_
      refine presP_ite _ _ (presP_bind (presP_ascend1 _) fun _ => presP_pure _ _) ?_
      refine presP_ite _ _ ?_ (ih _)
      exact presP_bind (presP_tok _ _) fun _ => presP_bind (presP_tok _ _) fun t2 => ih _
    | objLoop hasNest t acc =>
      rcases t with ⟨tok, ti, tp⟩
      cases tok <;> simp only [ckv1_parse]
      case str s =>
        refine presP_bind (presP_tok _ _) fun ct => ?_
        refine presP_ite _ _ ?_ ?_ <;>
          [refine presP_bind (presP_tok _ _) fun vt => ?_; skip] <;>
          refine presP_bind (ih _) fun v => ?_ <;>
          refine presP_bind (presP_tok _ _) fun nt => ?_ <;>
          refine presP_ite _ _ ?_ (ih _) <;>
          refine presP_ite _ _
            (presP_bind (presP_tok _ _) fun _ =>
              presP_bind (presP_ascend1 _) fun _ => presP_pure _ _)
            (presP_bind (presP_ascend1 _) fun _ => presP_pure _ _)
      all_goals exact presP_throw _ _ _ _
    | arrCtx isObject =>
      simp only [ckv1_parse]
      refine presP_bind (presP_descend1 cfg) fun _ => ?_
      refine presP_bind (presP_tok _ _) fun t => ?_
      refine presP_ite _ _ (presP_bind (presP_ascend1 _) fun _ => presP_pure _ _) ?_
      refine presP_ite _ _ ?_ ?_ <;>
        [(refine presP_bind (presP_tok _ _) fun _ => ?_;
          refine presP_bind (presP_tok _ _) fun t2 => ?_); skip] <;>
        refine presP_bind (presP_pure _ _) fun y => ?_ <;>
        exact presP_ite _ _ (presP_ite _ _ (ih _) (ih _)) (ih _)
    | arrLoopA isObject hasNest t i v acc =>
      simp only [ckv1_parse]
      refine presP_bind (ih _) fun e => ?_
      refine presP_bind (presP_tok _ _) fun t2 => ?_
      refine presP_ite _ _ ?_ ?_ <;>
        [refine presP_bind (presP_tok _ _) fun t3 => ?_; skip] <;>
        refine presP_ite _ _ ?_ ?_ <;>
        [(refine presP_bind (presP_tok _ _) fun vt => ?_;
          refine presP_bind (ih _) fun e2 => ?_;
          refine presP_bind (presP_tok _ _) fun t4 => ?_); skip;
         (refine presP_bind (presP_tok _ _) fun vt => ?_;
          refine presP_bind (ih _) fun e2 => ?_;
          refine presP_bind (presP_tok _ _) fun t4 => ?_); skip] <;>
        refine presP_bind (presP_pure _ _) fun y => ?_ <;>
        refine presP_ite _ _ ?_ (ih _) <;>
        exact presP_ite _ _
          (presP_bind (presP_tok _ _) fun _ =>
            presP_bind (presP_ascend1 _) fun _ => presP_pure _ _)
          (presP_bind (presP_ascend1 _) fun _ => presP_pure _ _)
    | arrLoopM t i acc =>
      simp only [ckv1_parse]
      refine presP_bind (ih _) fun e => ?_
      refine presP_bind (presP_tok _ _) fun t2 => ?_
      refine presP_ite _ _ (presP_bind (presP_ascend1 _) fun _ => presP_pure _ _) ?_
      refine presP_bind (presP_tok _ _) fun t3 => ?_
      exact presP_ite _ _ (presP_bind (presP_ascend1 _) fun _ => presP_pure _ _) (ih _)
    | decTop t acc =>
      rcases t with ⟨tok, ti, tp⟩
      cases tok <;> simp only [ckv1_parse]
      case str s =>
        refine presP_bind (presP_tok _ _) fun ct => ?_
        refine presP_ite _ _ ?_ ?_ <;>
          [refine presP_bind (presP_tok _ _) fun vt => ?_; skip] <;>
          refine presP_bind (ih _) fun v => ?_ <;>
          refine presP_bind (presP_tok _ _) fun nt => ?_ <;>
          exact presP_ite _ _ (presP_pure _ _) (ih _)
      all_goals exact presP_fail _ _ _
    | decArrTop t i acc =>
      simp only [ckv1_parse]
      refine presP_bind (ih _) fun e => ?_
      refine presP_bind (presP_tok _ _) fun t2 => ?_
      refine presP_ite _ _ ?_ ?_ <;>
        [(refine presP_bind (presP_tok _ _) fun vt => ?_;
          refine presP_bind (ih _) fun e2 => ?_); refine presP_bind (ih _) fun e2 => ?_] <;>
        refine presP_bind (presP_pure _ _) fun y => ?_ <;>
        refine presP_bind (presP_tok _ _) fun nt => ?_ <;>
        exact presP_ite _ _ (presP_pure _ _) (ih _)

theorem presP_descend3 (cfg : Cfg) :
    PresP cfg.decode_max_depth (ckv3_decode_descend cfg) := presP_descend cfg

theorem presP_ascend3 (D : Nat) : PresP D ckv3_decode_ascend := presP_ascend D

set_option maxHeartbeats 2000000 in
theorem presP_ckv3_parse (cfg : Cfg) (data : ByteStr) :
    ∀ (fuel : Nat) (req : KV3Req),
      PresP cfg.decode_max_depth (ckv3_parse cfg data fuel req) := by
  intro fuel
  induction fuel with
  | zero =>
    intro req st a st' h hle
    exact absurd h (by simp [ckv3_parse])
  | succ n ih =>
    intro req
    cases req with
    | val t =>
      rcases t with ⟨tok, ti, tp⟩
      cases tok <;> simp only [ckv3_parse] <;>
        first
          | exact presP_pure _ _
          | exact ih _
          | exact presP_throw _ _ _ _
    | objInternal t =>
      rcases t with ⟨tok, ti, tp⟩
      cases tok <;> simp only [ckv3_parse]
      case str s =>
        refine presP_bind (presP_tok _ _) fun nt => ?_
        obtain ⟨ntok, ni, np⟩ := nt
        cases ntok <;>
          first
            | exact presP_throw _ _ _ _
            | (refine presP_bind (presP_tok _ _) fun vt => ?_
               refine presP_bind (ih _) fun v => ?_
               cases v <;> first | exact presP_pure _ _ | exact presP_fail _ _ _)
            | (refine presP_bind (ih _) fun v => ?_
               cases v <;> first | exact presP_pure _ _ | exact presP_fail _ _ _)
      all_goals exact presP_fail _ _ _
    | objCtx =>
      simp only [ckv3_parse]
      refine presP_bind (presP_descend3 cfg) fun _ => ?_
      refine presP_bind (presP_tok _ _) fun t => ?_
      exact presP_ite _ _ (presP_bind (presP_ascend3 _) fun _ => presP_pure _ _) (ih _)
    | objLoop t acc =>
      rcases t with ⟨tok, ti, tp⟩
      cases tok <;> simp only [ckv3_parse]
      case str s =>
        refine presP_bind (ih _) fun r => ?_
        cases r with
        | one v => exact presP_fail _ _ _
        | two k v =>
          refine presP_bind (presP_tok _ _) fun nt => ?_
          exact presP_ite _ _ (presP_bind (presP_ascend3 _) fun _ => presP_pure _ _) (ih _)
      all_goals exact presP_throw _ _ _ _
    | arrCtx =>
      simp only [ckv3_parse]
      refine presP_bind (presP_descend3 cfg) fun _ => ?_
      refine presP_bind (presP_tok _ _) fun t => ?_
      exact presP_ite _ _ (presP_bind (presP_ascend3 _) fun _ => presP_pure _ _) (ih _)
    | arrLoop t i acc =>
      simp only [ckv3_parse]
      refine presP_bind (ih _) fun v => ?_
      cases v with
      | two k v => exact presP_fail _ _ _
      | one v' =>
        refine presP_bind (presP_tok _ _) fun t2 => ?_
        refine presP_ite _ _ ?_ ?_
        · repeat'
            first
            | exact ih _
            | exact presP_pure _ _
            | exact presP_fail _ _ _
            | exact presP_throw _ _ _ _
            | refine presP_bind (presP_tok _ _) fun _ => ?_
            | refine presP_bind (presP_ascend3 _) fun _ => ?_
            | refine presP_ite _ _ ?_ ?_
        · refine presP_ite _ _ (presP_bind (presP_ascend3 _) fun _ => presP_pure _ _) ?_
          rcases hk : luaToStr v' with _ | s2
          · refine presP_bind (presP_fail _ _ _) fun y => ?_
            refine presP_bind (ih _) fun e => ?_
            cases e with
            | two k v => exact presP_fail _ _ _
            | one e2 =>
              repeat'
                first
                | exact ih _
                | exact presP_pure _ _
                | exact presP_fail _ _ _
                | exact presP_throw _ _ _ _
                | refine presP_bind (presP_tok _ _) fun _ => ?_
                | refine presP_bind (presP_ascend3 _) fun _ => ?_
                | refine presP_ite _ _ ?_ ?_
          · refine presP_bind (presP_pure _ _) fun y => ?_
            refine presP_bind (ih _) fun e => ?_
            cases e with
            | two k v => exact presP_fail _ _ _
            | one e2 =>
              repeat'
                first
                | exact ih _
                | exact presP_pure _ _
                | exact presP_fail _ _ _
                | exact presP_throw _ _ _ _
                | refine presP_bind (presP_tok _ _) fun _ => ?_
                | refine presP_bind (presP_ascend3 _) fun _ => ?_
                | refine presP_ite _ _ ?_ ?_
    | decTop t acc =>
      simp only [ckv3_parse]
      refine presP_bind (ih _) fun r => ?_
      cases r with
      | one v => exact presP_fail _ _ _
      | two k v =>
        refine presP_bind (presP_tok _ _) fun nt => ?_
        exact presP_ite _ _ (presP_pure _ _) (ih _)

theorem peak_kv0_decode (std : StrtodFn) (cfg : Cfg) (data : ByteStr)
    (v : LuaValue) (st' : PSt)
    (h : ckv_decode_core std cfg data = some (.ok (v, st'))) :
    st'.peak ≤ cfg.decode_max_depth := by
  unfold ckv_decode_core at h
  split at h
  · simp at h
  · simp only [] at h
    refine (?hP : PresP cfg.decode_max_depth _) ⟨0, 0, 0⟩ v st' h (by simp)
    case hP =>
      refine presP_bind (presP_tok _ _) fun t => ?_
      refine presP_ite _ _ (presP_pure _ _) ?_
      refine presP_bind (presP_ckv_parse std cfg data _ _) fun k => ?_
      refine presP_bind (presP_tok _ _) fun vt => ?_
      refine presP_bind (presP_ckv_parse std cfg data _ _) fun v2 => ?_
      exact presP_pure _ _

theorem peak_kv0_decode2 (std : StrtodFn) (cfg : Cfg) (data : ByteStr)
    (v : LuaValue) (st' : PSt)
    (h : ckv_decode2_core std cfg data = some (.ok (v, st'))) :
    st'.peak ≤ cfg.decode_max_depth := by
  unfold ckv_decode2_core at h
  split at h
  · simp at h
  · simp only [] at h
    refine (?hP : PresP cfg.decode_max_depth _) ⟨0, 0, 0⟩ v st' h (by simp)
    case hP =>
      refine presP_bind (presP_tok _ _) fun t => ?_
      refine presP_ite _ _ (presP_pure _ _) ?_
      refine presP_bind (presP_ckv_parse std cfg data _ _) fun k => ?_
      refine presP_bind (presP_tok _ _) fun vt => ?_
      refine presP_bind (presP_ckv_parse std cfg data _ _) fun v2 => ?_
      exact presP_pure _ _

theorem peak_kv1_decode (std : StrtodFn) (cfg : Cfg) (data : ByteStr)
    (v : LuaValue) (st' : PSt)
    (h : ckv1_decode_core std cfg data = some (.ok (v, st'))) :
    st'.peak ≤ cfg.decode_max_depth := by
  unfold ckv1_decode_core at h
  split at h
  · simp at h
  · simp only [] at h
    refine (?hP : PresP cfg.decode_max_depth _) ⟨0, 0, 0⟩ v st' h (by simp)
    case hP =>
      refine presP_bind (presP_tok _ _) fun t => ?_
      obtain ⟨tok, ti, tp⟩ := t
      cases tok <;>
        first
          | exact presP_pure _ _
          | exact presP_ckv1_parse std cfg data _ _ _
          | (refine presP_bind (presP_ckv1_parse std cfg data _ _ _) fun v2 => ?_
             refine presP_bind (presP_tok _ _) fun t2 => ?_
             exact presP_ite _ _ (presP_pure _ _) (presP_throw _ _ _ _))

theorem peak_kv1_decode_array (std : StrtodFn) (cfg : Cfg) (data : ByteStr)
    (v : LuaValue) (st' : PSt)
    (h : ckv1_decode_array_core std cfg data = some (.ok (v, st'))) :
    st'.peak ≤ cfg.decode_max_depth := by
  unfold ckv1_decode_array_core at h
  split at h
  · simp at h
  · simp only [] at h
    refine (?hP : PresP cfg.decode_max_depth _) ⟨0, 0, 0⟩ v st' h (by simp)
    case hP =>
      refine presP_bind (presP_tok _ _) fun t => ?_
      obtain ⟨tok, ti, tp⟩ := t
      cases tok <;>
        first
          | exact presP_pure _ _
          | exact presP_ckv1_parse std cfg data _ _ _
          | (refine presP_bind (presP_ckv1_parse std cfg data _ _ _) fun v2 => ?_
             refine presP_bind (presP_tok _ _) fun t2 => ?_
             exact presP_ite _ _ (presP_pure _ _) (presP_throw _ _ _ _))

theorem peak_kv3_decode (cfg : Cfg) (data : ByteStr) (v : LuaValue) (st' : PSt)
    (h : ckv3_decode_core cfg data = some (.ok (v, st'))) :
    st'.peak ≤ cfg.decode_max_depth := by
  unfold ckv3_decode_core at h
  split at h
  · simp at h
  · simp only [] at h
    refine (?hP : PresP cfg.decode_max_depth _) ⟨0, 0, 0⟩ v st' h (by simp)
    case hP =>
      refine presP_bind (presP_tok _ _) fun t => ?_
      obtain ⟨tok, ti, tp⟩ := t
      cases tok <;>
        first
          | exact presP_throw _ _ _ _
          | (refine presP_bind (presP_ckv3_parse cfg data _ _) fun r => ?_
             cases r <;> first | exact presP_pure _ _ | exact presP_fail _ _ _)

theorem descend_ok (cfg : Cfg) (st : PSt) (h : st.depth + 1 ≤ cfg.decode_max_depth) :
    ckv_decode_descend cfg st =
      some (.ok ((), ⟨st.pos, st.depth + 1, max st.peak (st.depth + 1)⟩)) := by
  unfold ckv_decode_descend
  rw [if_pos h, forceNat_eq, forceNat_eq]

theorem descend_err (cfg : Cfg) (st : PSt) (h : ¬ st.depth + 1 ≤ cfg.decode_max_depth) :
    ckv_decode_descend cfg st =
      some (.error
        s!"Found too many nested data structures ({st.depth + 1}) at character {st.pos}") := by
  unfold ckv_decode_descend
  rw [if_neg h]

theorem ascend_eq (st : PSt) :
    ckv_decode_ascend st = some (.ok ((), ⟨st.pos, st.depth - 1, st.peak⟩)) := by
  unfold ckv_decode_ascend
  rw [forceNat_eq]

theorem c2_cfg2_kv0 :
    ckv_decode { decode_max_depth := 2 }
        (strBytes "\"a\" \x7b \"b\" \x7b \"c\" \x7b \"d\" \"1\" \x7d \x7d \x7d") =
      .error "Found too many nested data structures (3) at character 17" := by
  rw [show strBytes "\"a\" \x7b \"b\" \x7b \"c\" \x7b \"d\" \"1\" \x7d \x7d \x7d" =
    [34, 97, 34, 32, 123, 32, 34, 98, 34, 32, 123, 32, 34, 99, 34, 32, 123, 32, 34,
     100, 34, 32, 34, 49, 34, 32, 125, 32, 125, 32, 125] from by decide]
  exact rfl

theorem c2_cfg2_kv1 :
    ckv1_decode { decode_max_depth := 2 } (strBytes "a=[[[[") =
      .error "Found too many nested data structures (3) at character 5" := by
  rw [show strBytes "a=[[[[" = [97, 61, 91, 91, 91, 91] from by decide]
  exact rfl

theorem c2_cfg2_kv3 :
    ckv3_decode { decode_max_depth := 2 } (strBytes "\"a\" [ [ [ ") =
      .error "Found too many nested data structures (3) at character 9" := by
  rw [show strBytes "\"a\" [ [ [ " = [34, 97, 34, 32, 91, 32, 91, 32, 91, 32] from by decide]
  exact rfl

/-- C2: the nesting-depth bound of the three decoders.  Conjuncts: the
shared descend primitive increments the depth counter (recording the
new depth in the ghost `peak` field) when the incremented depth is
within `decode_max_depth`, and raises the structural error with the
source's exact message otherwise; the ascend primitive decrements the
depth; the KV1 and KV3 primitives are the KV0 ones; every successful
run of each of the five decode cores ends with `peak` - the largest
depth any descend ever reached - at most `decode_max_depth`; and with
`decode_max_depth` = 2 an over-nested input makes each dialect's
decode return the structural error instead of a tree. -/
theorem C2_depth_bound :
    (∀ (cfg : Cfg) (st : PSt), st.depth + 1 ≤ cfg.decode_max_depth →
      ckv_decode_descend cfg st =
        some (.ok ((), ⟨st.pos, st.depth + 1, max st.peak (st.depth + 1)⟩))) ∧
    (∀ (cfg : Cfg) (st : PSt), ¬ st.depth + 1 ≤ cfg.decode_max_depth →
      ckv_decode_descend cfg st =
        some (.error
          s!"Found too many nested data structures ({st.depth + 1}) at character {st.pos}")) ∧
    (∀ st : PSt,
      ckv_decode_ascend st = some (.ok ((), ⟨st.pos, st.depth - 1, st.peak⟩))) ∧
    (ckv1_decode_descend = ckv_decode_descend ∧ ckv3_decode_descend = ckv_decode_descend ∧
      ckv1_decode_ascend = ckv_decode_ascend ∧ ckv3_decode_ascend = ckv_decode_ascend) ∧
    (∀ (std : StrtodFn) (cfg : Cfg) (data : ByteStr) (v : LuaValue) (st' : PSt),
      ckv_decode_core std cfg data = some (.ok (v, st')) →
      st'.peak ≤ cfg.decode_max_depth) ∧
    (∀ (std : StrtodFn) (cfg : Cfg) (data : ByteStr) (v : LuaValue) (st' : PSt),
      ckv_decode2_core std cfg data = some (.ok (v, st')) →
      st'.peak ≤ cfg.decode_max_depth) ∧
    (∀ (std : StrtodFn) (cfg : Cfg) (data : ByteStr) (v : LuaValue) (st' : PSt),
      ckv1_decode_core std cfg data = some (.ok (v, st')) →
      st'.peak ≤ cfg.decode_max_depth) ∧
    (∀ (std : StrtodFn) (cfg : Cfg) (data : ByteStr) (v : LuaValue) (st' : PSt),
      ckv1_decode_array_core std cfg data = some (.ok (v, st')) →
      st'.peak ≤ cfg.decode_max_depth) ∧
    (∀ (cfg : Cfg) (data : ByteStr) (v : LuaValue) (st' : PSt),
      ckv3_decode_core cfg data = some (.ok (v, st')) →
      st'.peak ≤ cfg.decode_max_depth) ∧
    ckv_decode { decode_max_depth := 2 }
        (strBytes "\"a\" \x7b \"b\" \x7b \"c\" \x7b \"d\" \"1\" \x7d \x7d \x7d") =
      .error "Found too many nested data structures (3) at character 17" ∧
    ckv1_decode { decode_max_depth := 2 } (strBytes "a=[[[[") =
      .error "Found too many nested data structures (3) at character 5" ∧
    ckv3_decode { decode_max_depth := 2 } (strBytes "\"a\" [ [ [ ") =
      .error "Found too many nested data structures (3) at character 9" :=
  ⟨descend_ok, descend_err, ascend_eq, ⟨rfl, rfl, rfl, rfl⟩,
   peak_kv0_decode, peak_kv0_decode2, peak_kv1_decode, peak_kv1_decode_array,
   peak_kv3_decode, c2_cfg2_kv0, c2_cfg2_kv1, c2_cfg2_kv3⟩

theorem C2_depth_bound_witness :
    ckv_decode_core fpconv_strtod cfg0 [34, 97, 34, 32, 34, 49, 34] =
      some (.ok (.table [(.str [97], .str [49])], ⟨7, 0, 0⟩)) ∧
    (⟨7, 0, 0⟩ : PSt).peak ≤ cfg0.decode_max_depth ∧
    0 + 1 ≤ cfg0.decode_max_depth ∧
    ckv_decode_descend cfg0 ⟨5, 0, 0⟩ = some (.ok ((), ⟨5, 1, 1⟩)) :=
  ⟨rfl,
   C2_depth_bound.2.2.2.2.1 fpconv_strtod cfg0 [34, 97, 34, 32, 34, 49, 34]
     (.table [(.str [97], .str [49])]) ⟨7, 0, 0⟩ rfl,
   by decide,
   C2_depth_bound.1 cfg0 ⟨5, 0, 0⟩ (by decide)⟩
